import Mathlib

/-!
Verification of the client-side table-controller layer of a CRM web
application (contacts, leads, accounts, meetings, deals, tasks).

Each controller fetches a full collection, then filters, sorts and
paginates it in memory.  The definitions below are shallow embeddings of
the TypeScript source:

* `CT`  — `src/components/ContactTable.tsx` (the `ContactTable` component);
* `LT`  — `src/components/ContactTable.tsx` (the `LeadTable` component in
  the same file);
* `AT`  — `src/components/AccountTable.tsx`;
* `MT`  — `src/pages/Meetings.tsx`;
* `LV`  — `src/components/ListView.tsx` (the deals list);
* `TL`  — `src/components/tasks/TaskListView.tsx`.

Modelling conventions:

* JavaScript strings are `String`; `null`/`undefined` optional fields are
  `Option _`; JavaScript numbers that occur in these components are
  integral, and are modelled as `Int`.
* `String.prototype.localeCompare` is modelled as code-point
  lexicographic comparison returning -1/0/1 (`localeCompare` below).
* `Array.prototype.sort` is a stable sort consistent with the supplied
  comparator; it is modelled with `List.insertionSort`, which is stable,
  so only the permutation and comparator properties are relied upon.
* React state updates plus the `useEffect` hooks that react to them are
  modelled as pure transition functions on a state structure; a setter
  called with the current value is the identity (React bails out and the
  effect does not re-run), matching the guards in the transition
  functions.
* Backend (`supabase`) calls are modelled by emitting a list of call
  descriptors and by pure updates of an explicit backend value.
* `new Date(s).getTime()` on a timestamp string is modelled by an
  abstract parameter `parseDate : String → Int` (epoch milliseconds);
  no claim settled here depends on actual date parsing.
-/

/-- Code-point lexicographic comparison of character lists, the model of
`String.prototype.localeCompare` (result -1/0/1). -/
def lcChars : List Char → List Char → Int
  | [], [] => 0
  | [], _ :: _ => -1
  | _ :: _, [] => 1
  | a :: as, b :: bs =>
    if a.val < b.val then -1 else if b.val < a.val then 1 else lcChars as bs

/-- Model of `a.localeCompare(b)`. -/
def localeCompare (a b : String) : Int := lcChars a.data b.data

/-- Model of `s.toLowerCase()`. -/
def jsToLower (s : String) : String := ⟨s.data.map Char.toLower⟩

/-- Substring occurrence test on character lists. -/
def charsIncludes : List Char → List Char → Bool
  | [], sub => sub.isEmpty
  | s@(_ :: rest), sub => sub.isPrefixOf s || charsIncludes rest sub

/-- Model of `s.includes(sub)`. -/
def jsIncludes (s sub : String) : Bool := charsIncludes s.data sub.data

/-- Model of `field?.toLowerCase().includes(sub)` for an optional field:
a missing field never matches. -/
def optIncludes (field : Option String) (sub : String) : Bool :=
  match field with
  | none => false
  | some s => jsIncludes (jsToLower s) sub

/-- Model of `arr.slice(a, b)`. -/
def jsSlice {α : Type} (l : List α) (a b : Nat) : List α := (l.drop a).take (b - a)

/-- Model of `arr.sort(cmp)` for a comparator returning an integer:
a stable sort placing `x` before `y` whenever `cmp x y ≤ 0`. -/
def jsSortBy {α : Type} (cmp : α → α → Int) (l : List α) : List α :=
  l.insertionSort (fun a b => cmp a b ≤ 0)

/-- A JavaScript field value as read by the dynamic `row[sortField]`
indexing in the sort comparators. -/
inductive JSVal where
  | vnull
  | vstr (s : String)
  | vnum (n : Int)
  | varr (elems : List String)
deriving DecidableEq

/-- Model of `v || ''`: `null`/`undefined`, the empty string and the
number 0 are falsy and are replaced by the empty string. -/
def jsOrEmptyStr (v : JSVal) : JSVal :=
  match v with
  | .vnull => .vstr ""
  | .vstr s => .vstr s
  | .vnum n => if n = 0 then .vstr "" else .vnum n
  | .varr elems => .varr elems

/-- Model of `v.toString()`. -/
def JSVal.toJsString : JSVal → String
  | .vnull => "null"
  | .vstr s => s
  | .vnum n => toString n
  | .varr elems => String.intercalate "," elems

/-- Lift an optional string field to a `JSVal`. -/
def ovs (o : Option String) : JSVal :=
  match o with
  | none => .vnull
  | some s => .vstr s

/-- Lift an optional numeric field to a `JSVal`. -/
def ovn (o : Option Int) : JSVal :=
  match o with
  | none => .vnull
  | some n => .vnum n

/-- Lift an optional string-array field to a `JSVal`. -/
def ova (o : Option (List String)) : JSVal :=
  match o with
  | none => .vnull
  | some elems => .varr elems

/-- Sort direction, `'asc' | 'desc'` in the source. -/
inductive SortDir where
  | asc
  | desc
deriving DecidableEq

/-- Model of `prev === 'asc' ? 'desc' : 'asc'`. -/
def SortDir.toggle : SortDir → SortDir
  | .asc => .desc
  | .desc => .asc

namespace CT

/-- The `Contact` record of `src/components/ContactTable.tsx` (interface
`Contact`, lines 35-68), together with the joined field
`account_company_name` added by `fetchContacts`. -/
structure Contact where
  id : String
  contact_name : String
  company_name : Option String := none
  account_id : Option String := none
  account_company_name : Option String := none
  position : Option String := none
  email : Option String := none
  phone_no : Option String := none
  mobile_no : Option String := none
  region : Option String := none
  city : Option String := none
  state : Option String := none
  contact_owner : Option String := none
  created_time : Option String := none
  modified_time : Option String := none
  lead_status : Option String := none
  industry : Option String := none
  contact_source : Option String := none
  linkedin : Option String := none
  website : Option String := none
  description : Option String := none
  annual_revenue : Option Int := none
  no_of_employees : Option Int := none
  created_by : Option String := none
  modified_by : Option String := none
  tags : Option (List String) := none
  score : Option Int := none
  segment : Option String := none
  email_opens : Option Int := none
  email_clicks : Option Int := none
  engagement_score : Option Int := none
  last_contacted_at : Option String := none
deriving DecidableEq

/-- Dynamic field access `contact[field as keyof Contact]` used by the
sort comparator; an unknown key reads as `undefined`. -/
def Contact.get (c : Contact) (field : String) : JSVal :=
  if field = "id" then .vstr c.id
  else if field = "contact_name" then .vstr c.contact_name
  else if field = "company_name" then ovs c.company_name
  else if field = "account_id" then ovs c.account_id
  else if field = "account_company_name" then ovs c.account_company_name
  else if field = "position" then ovs c.position
  else if field = "email" then ovs c.email
  else if field = "phone_no" then ovs c.phone_no
  else if field = "mobile_no" then ovs c.mobile_no
  else if field = "region" then ovs c.region
  else if field = "city" then ovs c.city
  else if field = "state" then ovs c.state
  else if field = "contact_owner" then ovs c.contact_owner
  else if field = "created_time" then ovs c.created_time
  else if field = "modified_time" then ovs c.modified_time
  else if field = "lead_status" then ovs c.lead_status
  else if field = "industry" then ovs c.industry
  else if field = "contact_source" then ovs c.contact_source
  else if field = "linkedin" then ovs c.linkedin
  else if field = "website" then ovs c.website
  else if field = "description" then ovs c.description
  else if field = "annual_revenue" then ovn c.annual_revenue
  else if field = "no_of_employees" then ovn c.no_of_employees
  else if field = "created_by" then ovs c.created_by
  else if field = "modified_by" then ovs c.modified_by
  else if field = "tags" then ova c.tags
  else if field = "score" then ovn c.score
  else if field = "segment" then ovs c.segment
  else if field = "email_opens" then ovn c.email_opens
  else if field = "email_clicks" then ovn c.email_clicks
  else if field = "engagement_score" then ovn c.engagement_score
  else if field = "last_contacted_at" then ovs c.last_contacted_at
  else .vnull

/-- The free-text search predicate of the filter effect
(`ContactTable.tsx` lines 258-272): case-insensitive substring match
over a fixed list of fields, including any tag. -/
def matchesSearch (searchLower : String) (c : Contact) : Bool :=
  jsIncludes (jsToLower c.contact_name) searchLower ||
  optIncludes c.company_name searchLower ||
  optIncludes c.account_company_name searchLower ||
  optIncludes c.email searchLower ||
  optIncludes c.phone_no searchLower ||
  optIncludes c.linkedin searchLower ||
  optIncludes c.website searchLower ||
  optIncludes c.industry searchLower ||
  optIncludes c.region searchLower ||
  optIncludes c.description searchLower ||
  optIncludes c.position searchLower ||
  (c.tags.getD []).any (fun tag => jsIncludes (jsToLower tag) searchLower)

/-- The sort comparator body of the filter effect (`ContactTable.tsx`
lines 298-308): both operands are first coerced with `|| ''`; two
numbers compare by subtraction, anything else by
`toString().localeCompare`. -/
def compareVals (dir : SortDir) (av bv : JSVal) : Int :=
  let a := jsOrEmptyStr av
  let b := jsOrEmptyStr bv
  match a, b with
  | .vnum x, .vnum y =>
    match dir with
    | .asc => x - y
    | .desc => y - x
  | a, b =>
    let c := localeCompare a.toJsString b.toJsString
    match dir with
    | .asc => c
    | .desc => -c

/-- The comparator applied to a sort field. -/
def ctCompare (dir : SortDir) (field : String) (a b : Contact) : Int :=
  compareVals dir (a.get field) (b.get field)

/-- The state of the `ContactTable` controller that the claims are
about: the fetched collection, the (debounced) search term, the dropdown
filters, the sort pair, pagination and the selection
(`ContactTable.tsx` lines 96-185). -/
structure CTState where
  contacts : List Contact := []
  debouncedSearchTerm : String := ""
  sourceFilter : String := "all"
  ownerFilter : String := "all"
  segmentFilter : String := "all"
  tagFilter : Option String := none
  sortField : Option String := none
  sortDirection : SortDir := .asc
  currentPage : Nat := 1
  itemsPerPage : Nat := 25
  selectedContacts : List String := []
deriving DecidableEq

/-- Stage 1 of the filter effect: the free-text search
(`ContactTable.tsx` lines 258-272). -/
def searchFiltered (s : CTState) : List Contact :=
  s.contacts.filter (matchesSearch (jsToLower s.debouncedSearchTerm))

/-- Stage 2: the source dropdown (`if (sourceFilter && sourceFilter !==
"all")`, lines 275-279); comparison is case-insensitive and a missing
`contact_source` never matches. -/
def sourceFiltered (s : CTState) : List Contact :=
  if s.sourceFilter ≠ "" ∧ s.sourceFilter ≠ "all" then
    (searchFiltered s).filter (fun c =>
      match c.contact_source with
      | none => false
      | some src => jsToLower src = jsToLower s.sourceFilter)
  else searchFiltered s

/-- Stage 3: the owner dropdown (lines 282-284). -/
def ownerFiltered (s : CTState) : List Contact :=
  if s.ownerFilter ≠ "" ∧ s.ownerFilter ≠ "all" then
    (sourceFiltered s).filter (fun c => c.contact_owner = some s.ownerFilter)
  else sourceFiltered s

/-- Stage 4: the segment dropdown (lines 287-289). -/
def segmentFiltered (s : CTState) : List Contact :=
  if s.segmentFilter ≠ "" ∧ s.segmentFilter ≠ "all" then
    (ownerFiltered s).filter (fun c => c.segment = some s.segmentFilter)
  else ownerFiltered s

/-- Stage 5: the tag badge filter (`if (tagFilter)`, lines 292-294);
`contact.tags?.includes(tagFilter)`. -/
def tagFiltered (s : CTState) : List Contact :=
  match s.tagFilter with
  | some t =>
    if t ≠ "" then (segmentFiltered s).filter (fun c => (c.tags.getD []).contains t)
    else segmentFiltered s
  | none => segmentFiltered s

/-- The `filteredContacts` state after the filter-and-sort effect
(lines 257-313) has run: the five filter stages followed by the in-place
sort when a sort field is active. -/
def filteredContacts (s : CTState) : List Contact :=
  match s.sortField with
  | some f => jsSortBy (ctCompare s.sortDirection f) (tagFiltered s)
  | none => tagFiltered s

/-- The rendered page window (`ContactTable.tsx` lines 463-465):
`filteredContacts.slice(startIndex, startIndex + itemsPerPage)`. -/
def pageContacts (s : CTState) : List Contact :=
  let startIndex := (s.currentPage - 1) * s.itemsPerPage
  jsSlice (filteredContacts s) startIndex (startIndex + s.itemsPerPage)

/-- The filter-and-sort effect ends with `setCurrentPage(1)`
(line 312); every transition that re-runs the effect applies this. -/
def applyFilterEffect (s : CTState) : CTState := { s with currentPage := 1 }

/-- Committing a (debounced) search term; a value equal to the current
one does not re-run the effect. -/
def setSearch (s : CTState) (q : String) : CTState :=
  if q = s.debouncedSearchTerm then s
  else applyFilterEffect { s with debouncedSearchTerm := q }

/-- The source dropdown `onValueChange={setSourceFilter}`. -/
def setSourceFilter (s : CTState) (v : String) : CTState :=
  if v = s.sourceFilter then s
  else applyFilterEffect { s with sourceFilter := v }

/-- The owner dropdown `onValueChange={setOwnerFilter}`. -/
def setOwnerFilter (s : CTState) (v : String) : CTState :=
  if v = s.ownerFilter then s
  else applyFilterEffect { s with ownerFilter := v }

/-- The segment dropdown `onValueChange={setSegmentFilter}`. -/
def setSegmentFilter (s : CTState) (v : String) : CTState :=
  if v = s.segmentFilter then s
  else applyFilterEffect { s with segmentFilter := v }

/-- Setting or clearing the tag badge filter. -/
def setTagFilter (s : CTState) (v : Option String) : CTState :=
  if v = s.tagFilter then s
  else applyFilterEffect { s with tagFilter := v }

/-- The column-header click handler `handleSort` (`ContactTable.tsx`
lines 315-322): the same column toggles the direction, a different
column becomes the sort column with direction ascending.  Either way a
sort dependency changes, so the filter effect re-runs. -/
def handleSort (s : CTState) (field : String) : CTState :=
  applyFilterEffect <|
    if s.sortField = some field then
      { s with sortDirection := s.sortDirection.toggle }
    else
      { s with sortField := some field, sortDirection := .asc }

/-- The page-size select (`ContactTable.tsx` line 594); `itemsPerPage`
is not a dependency of the filter effect, so the page is not reset. -/
def setItemsPerPage (s : CTState) (n : Nat) : CTState := { s with itemsPerPage := n }

/-- Source `Math.ceil(filteredContacts.length / itemsPerPage)` (line 463). -/
def totalPages (s : CTState) : Nat := ((filteredContacts s).length + s.itemsPerPage - 1) / s.itemsPerPage

/-- The next-page button (`setCurrentPage(prev => Math.min(totalPages,
prev + 1))`, line 873). -/
def nextPage (s : CTState) : CTState := { s with currentPage := min (totalPages s) (s.currentPage + 1) }

/-- The previous-page button (`setCurrentPage(prev => Math.max(1, prev -
1))`, line 861). -/
def prevPage (s : CTState) : CTState := { s with currentPage := max 1 (s.currentPage - 1) }

/-- Source `handleSelectAll` (`ContactTable.tsx` lines 435-442): checking
selects the ids of at most the first 50 rows of the current page,
unchecking clears the selection. -/
def handleSelectAll (s : CTState) (checked : Bool) : CTState :=
  if checked then
    { s with selectedContacts := ((pageContacts s).take 50).map (fun c => c.id) }
  else
    { s with selectedContacts := [] }

/-- The header checkbox state (`ContactTable.tsx` line 616):
`selectedContacts.length > 0 && selectedContacts.length ===
Math.min(pageContacts.length, 50)` — a count comparison, not a
membership test. -/
def selectAllIndicator (s : CTState) : Bool :=
  decide (0 < s.selectedContacts.length) &&
  decide (s.selectedContacts.length = min (pageContacts s).length 50)

/-- Backend calls that `handleBulkDelete` can issue. -/
inductive ContactCall where
  | deleteContactsByIds (ids : List String)
deriving DecidableEq

/-- Result of a run of `handleBulkDelete`: the calls issued, the
contacts table after the run, and the resulting selection. -/
structure BulkDeleteRun where
  calls : List ContactCall
  contactsDb : List Contact
  selection : List String
deriving DecidableEq

/-- Source `handleBulkDelete` (`ContactTable.tsx` lines 360-391): a no-op on an
empty selection; otherwise one batched `delete().in('id',
selectedContacts)`.  On success the selection is cleared; on a backend
error the `catch` branch only shows a toast, leaving the selection (and
the backend rows) unchanged. -/
def handleBulkDelete (sel : List String) (db : List Contact) (fails : Bool) : BulkDeleteRun :=
  if sel.isEmpty then ⟨[], db, sel⟩
  else if fails then ⟨[.deleteContactsByIds sel], db, sel⟩
  else ⟨[.deleteContactsByIds sel], db.filter (fun c => !(sel.contains c.id)), []⟩

end CT

namespace LT

/-- The `Lead` record of `src/components/ContactTable.tsx` (interface
`Lead`, lines 1022-1043), with the joined `account_company_name`; every
sortable field of a lead holds a string (or is missing). -/
structure Lead where
  id : String
  lead_name : String
  company_name : Option String := none
  account_company_name : Option String := none
  account_id : Option String := none
  position : Option String := none
  email : Option String := none
  phone_no : Option String := none
  contact_owner : Option String := none
  created_time : Option String := none
  modified_time : Option String := none
  lead_status : Option String := none
  contact_source : Option String := none
  linkedin : Option String := none
  website : Option String := none
  description : Option String := none
  created_by : Option String := none
  modified_by : Option String := none
  country : Option String := none
  industry : Option String := none
deriving DecidableEq

/-- Dynamic field access `lead[sortField as keyof Lead]` used by the
lead sort comparator. -/
def Lead.get (l : Lead) (field : String) : JSVal :=
  if field = "id" then .vstr l.id
  else if field = "lead_name" then .vstr l.lead_name
  else if field = "company_name" then ovs l.company_name
  else if field = "account_company_name" then ovs l.account_company_name
  else if field = "account_id" then ovs l.account_id
  else if field = "position" then ovs l.position
  else if field = "email" then ovs l.email
  else if field = "phone_no" then ovs l.phone_no
  else if field = "contact_owner" then ovs l.contact_owner
  else if field = "created_time" then ovs l.created_time
  else if field = "modified_time" then ovs l.modified_time
  else if field = "lead_status" then ovs l.lead_status
  else if field = "contact_source" then ovs l.contact_source
  else if field = "linkedin" then ovs l.linkedin
  else if field = "website" then ovs l.website
  else if field = "description" then ovs l.description
  else if field = "created_by" then ovs l.created_by
  else if field = "modified_by" then ovs l.modified_by
  else if field = "country" then ovs l.country
  else if field = "industry" then ovs l.industry
  else .vnull

/-- The lead search predicate (`ContactTable.tsx` lines 1232-1242). -/
def matchesSearch (searchLower : String) (l : Lead) : Bool :=
  jsIncludes (jsToLower l.lead_name) searchLower ||
  optIncludes l.company_name searchLower ||
  optIncludes l.account_company_name searchLower ||
  optIncludes l.email searchLower ||
  optIncludes l.phone_no searchLower ||
  optIncludes l.position searchLower ||
  optIncludes l.linkedin searchLower ||
  optIncludes l.website searchLower

/-- The lead sort comparator (`ContactTable.tsx` lines 1271-1276): no
numeric branch — after the `|| ''` coercion everything compares by
`toString().localeCompare`. -/
def compareVals (dir : SortDir) (av bv : JSVal) : Int :=
  let a := jsOrEmptyStr av
  let b := jsOrEmptyStr bv
  let c := localeCompare a.toJsString b.toJsString
  match dir with
  | .asc => c
  | .desc => -c

/-- The comparator applied to a sort field. -/
def ltCompare (dir : SortDir) (field : String) (a b : Lead) : Int :=
  compareVals dir (a.get field) (b.get field)

/-- The state of the `LeadTable` controller (`ContactTable.tsx` lines
1113-1212). -/
structure LTState where
  leads : List Lead := []
  debouncedSearchTerm : String := ""
  statusFilter : String := "all"
  ownerFilter : String := "all"
  dateFromFilter : Option String := none
  dateToFilter : Option String := none
  sortField : Option String := none
  sortDirection : SortDir := .asc
  currentPage : Nat := 1
  itemsPerPage : Nat := 25
  selectedLeads : List String := []
deriving DecidableEq

/-- Stage 1 of the lead filter effect: the free-text search
(`ContactTable.tsx` lines 1232-1242). -/
def searchFiltered (s : LTState) : List Lead :=
  s.leads.filter (matchesSearch (jsToLower s.debouncedSearchTerm))

/-- Stage 2: the status dropdown (`if (statusFilter !== "all")`,
lines 1244-1246). -/
def statusFiltered (s : LTState) : List Lead :=
  if s.statusFilter ≠ "all" then
    (searchFiltered s).filter (fun l => l.lead_status = some s.statusFilter)
  else searchFiltered s

/-- Stage 3: the owner dropdown (lines 1249-1251). -/
def ownerFiltered (s : LTState) : List Lead :=
  if s.ownerFilter ≠ "all" then
    (statusFiltered s).filter (fun l => l.contact_owner = some s.ownerFilter)
  else statusFiltered s

/-- Stage 4: the `created_time` lower-bound filter (`ContactTable.tsx`
lines 1254-1260); `parseDate` models the `new Date(...)` comparison on
the timestamp strings, and a falsy `created_time` never matches. -/
def dateFromFiltered (parseDate : String → Int) (s : LTState) : List Lead :=
  match s.dateFromFilter with
  | some d =>
    if d ≠ "" then
      (ownerFiltered s).filter (fun l =>
        match l.created_time with
        | none => false
        | some ct => if ct = "" then false else decide (parseDate d ≤ parseDate ct))
    else ownerFiltered s
  | none => ownerFiltered s

/-- Stage 5: the `created_time` upper-bound filter (lines 1261-1267). -/
def dateFiltered (parseDate : String → Int) (s : LTState) : List Lead :=
  match s.dateToFilter with
  | some d =>
    if d ≠ "" then
      (dateFromFiltered parseDate s).filter (fun l =>
        match l.created_time with
        | none => false
        | some ct => if ct = "" then false else decide (parseDate ct ≤ parseDate d))
    else dateFromFiltered parseDate s
  | none => dateFromFiltered parseDate s

/-- The `filteredLeads` state after the filter-and-sort effect
(`ContactTable.tsx` lines 1231-1280) has run. -/
def filteredLeads (parseDate : String → Int) (s : LTState) : List Lead :=
  match s.sortField with
  | some f => jsSortBy (ltCompare s.sortDirection f) (dateFiltered parseDate s)
  | none => dateFiltered parseDate s

/-- Source `getCurrentPageLeads` (`ContactTable.tsx` lines 1445-1448). -/
def getCurrentPageLeads (parseDate : String → Int) (s : LTState) : List Lead :=
  let startIndex := (s.currentPage - 1) * s.itemsPerPage
  jsSlice (filteredLeads parseDate s) startIndex (startIndex + s.itemsPerPage)

/-- The lead filter-and-sort effect ends with `setCurrentPage(1)`
(line 1279). -/
def applyFilterEffect (s : LTState) : LTState := { s with currentPage := 1 }

/-- Committing a (debounced) lead search term. -/
def setSearch (s : LTState) (q : String) : LTState :=
  if q = s.debouncedSearchTerm then s
  else applyFilterEffect { s with debouncedSearchTerm := q }

/-- The lead status filter. -/
def setStatusFilter (s : LTState) (v : String) : LTState :=
  if v = s.statusFilter then s
  else applyFilterEffect { s with statusFilter := v }

/-- The lead owner filter. -/
def setOwnerFilter (s : LTState) (v : String) : LTState :=
  if v = s.ownerFilter then s
  else applyFilterEffect { s with ownerFilter := v }

/-- The date-from filter. -/
def setDateFromFilter (s : LTState) (v : Option String) : LTState :=
  if v = s.dateFromFilter then s
  else applyFilterEffect { s with dateFromFilter := v }

/-- The date-to filter. -/
def setDateToFilter (s : LTState) (v : Option String) : LTState :=
  if v = s.dateToFilter then s
  else applyFilterEffect { s with dateToFilter := v }

/-- Source `handleSort` for leads (`ContactTable.tsx` lines 1282-1289). -/
def handleSort (s : LTState) (field : String) : LTState :=
  applyFilterEffect <|
    if s.sortField = some field then
      { s with sortDirection := s.sortDirection.toggle }
    else
      { s with sortField := some field, sortDirection := .asc }

/-- The lead page-size select; not a dependency of the filter effect. -/
def setItemsPerPage (s : LTState) (n : Nat) : LTState := { s with itemsPerPage := n }

/-- Source `handleSelectAll` for leads (`ContactTable.tsx` lines 1428-1435). -/
def handleSelectAll (parseDate : String → Int) (s : LTState) (checked : Bool) : LTState :=
  if checked then
    { s with selectedLeads := ((getCurrentPageLeads parseDate s).take 50).map (fun l => l.id) }
  else
    { s with selectedLeads := [] }

/-- A `lead_action_items` row as used by the cascade delete: its id and
the lead it belongs to. -/
structure ActionItem where
  id : String
  lead_id : String
deriving DecidableEq

/-- Backend calls issued by the lead bulk delete, in order. -/
inductive LeadCall where
  | deleteNotificationsByLeadIds (ids : List String)
  | deleteNotificationsByActionItemIds (ids : List String)
  | deleteActionItemsByLeadIds (ids : List String)
  | deleteLeadsByIds (ids : List String)
deriving DecidableEq

/-- The sequence of backend calls issued by `handleBulkDelete`
(`ContactTable.tsx` lines 1379-1421): nothing on an empty selection;
with `deleteLinkedRecords` the notifications keyed by the selected lead
ids are deleted, then (when any exist) the notifications of the
selected leads' action items, then the action items themselves, and
only then the leads. -/
def bulkDeleteCalls (sel : List String) (actionItems : List ActionItem)
    (deleteLinkedRecords : Bool) : List LeadCall :=
  if sel.isEmpty then []
  else
    (if deleteLinkedRecords then
      let ai := actionItems.filter (fun a => sel.contains a.lead_id)
      [.deleteNotificationsByLeadIds sel] ++
      (if 0 < ai.length then [.deleteNotificationsByActionItemIds (ai.map (fun a => a.id))] else []) ++
      [.deleteActionItemsByLeadIds sel]
    else []) ++ [.deleteLeadsByIds sel]

end LT

namespace AT

/-- The `Account` record of `src/components/AccountTable.tsx` (interface
`Account`, lines 33-56). -/
structure Account where
  id : String
  company_name : String
  region : Option String := none
  country : Option String := none
  website : Option String := none
  company_type : Option String := none
  tags : Option (List String) := none
  status : Option String := none
  notes : Option String := none
  account_owner : Option String := none
  industry : Option String := none
  phone : Option String := none
  email : Option String := none
  created_at : Option String := none
  updated_at : Option String := none
  created_by : Option String := none
  modified_by : Option String := none
  score : Option Int := none
  segment : Option String := none
  total_revenue : Option Int := none
  deal_count : Option Int := none
  contact_count : Option Int := none
deriving DecidableEq

/-- Dynamic field access `account[sortField as keyof Account]` used by
the account sort comparator. -/
def Account.get (a : Account) (field : String) : JSVal :=
  if field = "id" then .vstr a.id
  else if field = "company_name" then .vstr a.company_name
  else if field = "region" then ovs a.region
  else if field = "country" then ovs a.country
  else if field = "website" then ovs a.website
  else if field = "company_type" then ovs a.company_type
  else if field = "tags" then ova a.tags
  else if field = "status" then ovs a.status
  else if field = "notes" then ovs a.notes
  else if field = "account_owner" then ovs a.account_owner
  else if field = "industry" then ovs a.industry
  else if field = "phone" then ovs a.phone
  else if field = "email" then ovs a.email
  else if field = "created_at" then ovs a.created_at
  else if field = "updated_at" then ovs a.updated_at
  else if field = "created_by" then ovs a.created_by
  else if field = "modified_by" then ovs a.modified_by
  else if field = "score" then ovn a.score
  else if field = "segment" then ovs a.segment
  else if field = "total_revenue" then ovn a.total_revenue
  else if field = "deal_count" then ovn a.deal_count
  else if field = "contact_count" then ovn a.contact_count
  else .vnull

/-- The account search predicate (`AccountTable.tsx` line 199). -/
def matchesSearch (searchLower : String) (a : Account) : Bool :=
  jsIncludes (jsToLower a.company_name) searchLower ||
  optIncludes a.industry searchLower ||
  optIncludes a.country searchLower ||
  optIncludes a.email searchLower ||
  optIncludes a.phone searchLower ||
  optIncludes a.website searchLower ||
  optIncludes a.notes searchLower ||
  optIncludes a.company_type searchLower ||
  optIncludes a.region searchLower ||
  optIncludes a.segment searchLower ||
  (a.tags.getD []).any (fun tag => jsIncludes (jsToLower tag) searchLower)

/-- The account sort comparator (`AccountTable.tsx` lines 212-222):
`|| ''` coercion, numeric subtraction when both values are numbers,
otherwise `toString().localeCompare`. -/
def compareVals (dir : SortDir) (av bv : JSVal) : Int :=
  let a := jsOrEmptyStr av
  let b := jsOrEmptyStr bv
  match a, b with
  | .vnum x, .vnum y =>
    match dir with
    | .asc => x - y
    | .desc => y - x
  | a, b =>
    let c := localeCompare a.toJsString b.toJsString
    match dir with
    | .asc => c
    | .desc => -c

/-- The comparator applied to a sort field. -/
def atCompare (dir : SortDir) (field : String) (a b : Account) : Int :=
  compareVals dir (a.get field) (b.get field)

/-- The state of the `AccountTable` controller (`AccountTable.tsx`
lines 85-156); its search term is applied undebounced. -/
structure ATState where
  accounts : List Account := []
  searchTerm : String := ""
  statusFilter : String := "all"
  ownerFilter : String := "all"
  tagFilter : Option String := none
  sortField : Option String := none
  sortDirection : SortDir := .asc
  currentPage : Nat := 1
  itemsPerPage : Nat := 25
  selectedAccounts : List String := []
deriving DecidableEq

/-- Stage 1 of the account filter effect: the free-text search
(`AccountTable.tsx` line 199). -/
def searchFiltered (s : ATState) : List Account :=
  s.accounts.filter (matchesSearch (jsToLower s.searchTerm))

/-- Stage 2: the status dropdown (`AccountTable.tsx` lines 200-202). -/
def statusFiltered (s : ATState) : List Account :=
  if s.statusFilter ≠ "all" then
    (searchFiltered s).filter (fun a => a.status = some s.statusFilter)
  else searchFiltered s

/-- Stage 3: the owner dropdown (lines 205-207). -/
def ownerFiltered (s : ATState) : List Account :=
  if s.ownerFilter ≠ "all" then
    (statusFiltered s).filter (fun a => a.account_owner = some s.ownerFilter)
  else statusFiltered s

/-- Stage 4: the tag filter (`if (tagFilter)`, lines 208-210). -/
def tagFiltered (s : ATState) : List Account :=
  match s.tagFilter with
  | some t =>
    if t ≠ "" then (ownerFiltered s).filter (fun a => (a.tags.getD []).contains t)
    else ownerFiltered s
  | none => ownerFiltered s

/-- The `filteredAccounts` state after the filter-and-sort effect
(`AccountTable.tsx` lines 197-226) has run. -/
def filteredAccounts (s : ATState) : List Account :=
  match s.sortField with
  | some f => jsSortBy (atCompare s.sortDirection f) (tagFiltered s)
  | none => tagFiltered s

/-- Source `getCurrentPageAccounts` (`AccountTable.tsx` lines 388-391). -/
def getCurrentPageAccounts (s : ATState) : List Account :=
  let startIndex := (s.currentPage - 1) * s.itemsPerPage
  jsSlice (filteredAccounts s) startIndex (startIndex + s.itemsPerPage)

/-- The account filter-and-sort effect ends with `setCurrentPage(1)`
(line 225). -/
def applyFilterEffect (s : ATState) : ATState := { s with currentPage := 1 }

/-- The account search input. -/
def setSearch (s : ATState) (q : String) : ATState :=
  if q = s.searchTerm then s
  else applyFilterEffect { s with searchTerm := q }

/-- The account status filter. -/
def setStatusFilter (s : ATState) (v : String) : ATState :=
  if v = s.statusFilter then s
  else applyFilterEffect { s with statusFilter := v }

/-- The account owner filter. -/
def setOwnerFilter (s : ATState) (v : String) : ATState :=
  if v = s.ownerFilter then s
  else applyFilterEffect { s with ownerFilter := v }

/-- The account tag filter. -/
def setTagFilter (s : ATState) (v : Option String) : ATState :=
  if v = s.tagFilter then s
  else applyFilterEffect { s with tagFilter := v }

/-- Source `handleSort` for accounts (`AccountTable.tsx` lines 227-234). -/
def handleSort (s : ATState) (field : String) : ATState :=
  applyFilterEffect <|
    if s.sortField = some field then
      { s with sortDirection := s.sortDirection.toggle }
    else
      { s with sortField := some field, sortDirection := .asc }

/-- The account page-size select; not a dependency of the filter
effect. -/
def setItemsPerPage (s : ATState) (n : Nat) : ATState := { s with itemsPerPage := n }

/-- Source `handleSelectAll` for accounts (`AccountTable.tsx` lines 373-380). -/
def handleSelectAll (s : ATState) (checked : Bool) : ATState :=
  if checked then
    { s with selectedAccounts := ((getCurrentPageAccounts s).take 50).map (fun a => a.id) }
  else
    { s with selectedAccounts := [] }

/-- A contact or lead row as seen by the referential-integrity queries:
only its `account_id` matters. -/
structure LinkedRow where
  id : String
  account_id : Option String := none
deriving DecidableEq

/-- The backend tables touched by account deletion. -/
structure Backend where
  accounts : List Account := []
  contacts : List LinkedRow := []
  leads : List LinkedRow := []
deriving DecidableEq

/-- Backend calls issued by account deletion. -/
inductive AccountCall where
  | selectContactsByAccountIds (ids : List String)
  | selectLeadsByAccountIds (ids : List String)
  | deleteAccountsByIds (ids : List String)
deriving DecidableEq

/-- The toast shown at the end of a bulk delete run
(`AccountTable.tsx` lines 335-359). -/
inductive BulkMsg where
  | cannotDeleteAll
  | deletedWithSkipped (deleted skipped : Nat)
  | deletedAll (deleted : Nat)
  | noSelection
deriving DecidableEq

/-- Whether some contact row links to the account. -/
def hasLinkedContacts (db : Backend) (accId : String) : Bool :=
  db.contacts.any (fun c => c.account_id = some accId)

/-- Whether some lead row links to the account. -/
def hasLinkedLeads (db : Backend) (accId : String) : Bool :=
  db.leads.any (fun l => l.account_id = some accId)

/-- Result of a single-account delete run: calls issued and the backend
afterwards. -/
structure DeleteRun where
  calls : List AccountCall
  db : Backend
deriving DecidableEq

/-- Source `handleDelete` (`AccountTable.tsx` lines 280-318): first query the
contacts and leads linked to the account; if either query returns a row
the delete is rejected with a toast and no delete call is issued;
otherwise one `delete().eq('id', ...)` call removes the account. -/
def handleDelete (db : Backend) (accId : String) : DeleteRun :=
  if hasLinkedContacts db accId || hasLinkedLeads db accId then
    ⟨[.selectContactsByAccountIds [accId], .selectLeadsByAccountIds [accId]], db⟩
  else
    ⟨[.selectContactsByAccountIds [accId], .selectLeadsByAccountIds [accId],
      .deleteAccountsByIds [accId]],
     { db with accounts := db.accounts.filter (fun a => !(a.id = accId)) }⟩

/-- Result of a bulk-account delete run. -/
structure BulkRun where
  calls : List AccountCall
  db : Backend
  msg : BulkMsg
  selection : List String
deriving DecidableEq

/-- Source `handleBulkDelete` (`AccountTable.tsx` lines 321-372): query the
contacts and leads whose `account_id` is among the selected ids, form
the set of linked account ids, keep only the unlinked selected ids; if
none remain, reject without issuing a delete; otherwise one batched
delete over exactly the unlinked ids, a summary toast with the deleted
and skipped counts, and a cleared selection. -/
def handleBulkDelete (db : Backend) (sel : List String) : BulkRun :=
  if sel.isEmpty then ⟨[], db, .noSelection, sel⟩
  else
    let linkedContactIds := db.contacts.filterMap (fun c =>
      c.account_id.bind (fun a => if sel.contains a then some a else none))
    let linkedLeadIds := db.leads.filterMap (fun l =>
      l.account_id.bind (fun a => if sel.contains a then some a else none))
    let accountsWithLinks := linkedContactIds ++ linkedLeadIds
    let deletableAccounts := sel.filter (fun id => !(accountsWithLinks.contains id))
    let skippedCount := sel.length - deletableAccounts.length
    if deletableAccounts.isEmpty then
      ⟨[.selectContactsByAccountIds sel, .selectLeadsByAccountIds sel], db, .cannotDeleteAll, sel⟩
    else
      ⟨[.selectContactsByAccountIds sel, .selectLeadsByAccountIds sel,
        .deleteAccountsByIds deletableAccounts],
       { db with accounts := db.accounts.filter (fun a => !(deletableAccounts.contains a.id)) },
       if 0 < skippedCount then .deletedWithSkipped deletableAccounts.length skippedCount
       else .deletedAll deletableAccounts.length,
       []⟩

end AT


/-- A computed sort key in the comparators that first extract a key and
then compare with the relational operators (`Meetings.tsx`,
`ListView.tsx`): either a string or a number, never mixed for one
column. -/
inductive SKey where
  | kstr (s : String)
  | knum (n : Int)
deriving DecidableEq

/-- Model of the JavaScript `<` comparison on two sort keys of the same
kind (string code-unit order or numeric order); mixed kinds do not occur
and compare as `false`. -/
def skeyLt : SKey → SKey → Bool
  | .kstr a, .kstr b => lcChars a.data b.data < 0
  | .knum a, .knum b => a < b
  | .kstr _, .knum _ => false
  | .knum _, .kstr _ => false

namespace MT

/-- The `Meeting` record of `src/pages/Meetings.tsx` (interface
`Meeting`, lines 31-48) with the joined `lead_name`/`contact_name`.
The `start_time`/`end_time` timestamp strings are only ever used through
`new Date(...)`; they are modelled directly as epoch milliseconds. -/
structure Meeting where
  id : String
  subject : String
  description : Option String := none
  start_time : Int := 0
  end_time : Int := 0
  lead_id : Option String := none
  contact_id : Option String := none
  created_by : Option String := none
  created_at : Option String := none
  status : String := ""
  outcome : Option String := none
  notes : Option String := none
  lead_name : Option String := none
  contact_name : Option String := none
deriving DecidableEq

/-- The meeting search predicate (`Meetings.tsx` line 202). -/
def matchesSearch (q : String) (m : Meeting) : Bool :=
  jsIncludes (jsToLower m.subject) (jsToLower q) ||
  optIncludes m.lead_name (jsToLower q) ||
  optIncludes m.contact_name (jsToLower q)

/-- The sortable columns (`Meetings.tsx` line 28). -/
inductive MSortCol where
  | subject
  | date
  | time
  | lead_contact
  | status
deriving DecidableEq

/-- Model of `a.lead_name || a.contact_name || ''`. -/
def leadContactStr (m : Meeting) : String :=
  match m.lead_name with
  | some s => if s = "" then (match m.contact_name with | some t => t | none => "") else s
  | none => match m.contact_name with | some t => t | none => ""

/-- The per-column sort key (`Meetings.tsx` lines 213-236).  The `date`
key is the epoch of the day start (`setHours(0,0,0,0)`) and the `time`
key is minutes since midnight; the local-time `Date` accessors are
modelled in UTC, which no claim settled here depends on. -/
def sortKey (effStatus : Meeting → String) (col : MSortCol) (m : Meeting) : SKey :=
  match col with
  | .subject => .kstr (jsToLower m.subject)
  | .date => .knum (m.start_time - m.start_time.emod 86400000)
  | .time => .knum (((m.start_time.ediv 3600000).emod 24) * 60 + (m.start_time.ediv 60000).emod 60)
  | .lead_contact => .kstr (jsToLower (leadContactStr m))
  | .status => .kstr (effStatus m)

/-- The meeting sort comparator (`Meetings.tsx` lines 210-240);
`getMeetingStatus` lives outside the reviewed sources and is an
arbitrary parameter `effStatus`. -/
def mtCompare (effStatus : Meeting → String) (col : MSortCol) (dir : SortDir)
    (a b : Meeting) : Int :=
  let av := sortKey effStatus col a
  let bv := sortKey effStatus col b
  if skeyLt av bv then (match dir with | .asc => -1 | .desc => 1)
  else if skeyLt bv av then (match dir with | .asc => 1 | .desc => -1)
  else 0

/-- The fixed page size (`Meetings.tsx` line 50). -/
def ITEMS_PER_PAGE : Nat := 25

/-- The state of the `Meetings` page controller (`Meetings.tsx` lines
62-80). -/
structure MTState where
  meetings : List Meeting := []
  searchTerm : String := ""
  statusFilter : String := "all"
  organizerFilter : String := "all"
  sortColumn : Option MSortCol := none
  sortDirection : SortDir := .asc
  currentPage : Nat := 1
  selectedMeetings : List String := []
deriving DecidableEq

/-- The filter of `sortedAndFilteredMeetings` (`Meetings.tsx` lines
201-208): search AND effective-status AND organizer. -/
def matchesFilters (effStatus : Meeting → String) (s : MTState) (m : Meeting) : Bool :=
  matchesSearch s.searchTerm m &&
  (s.statusFilter = "all" || effStatus m = s.statusFilter) &&
  (s.organizerFilter = "all" || m.created_by = some s.organizerFilter)

/-- Source `sortedAndFilteredMeetings` (`Meetings.tsx` lines 200-243). -/
def sortedAndFilteredMeetings (effStatus : Meeting → String) (s : MTState) : List Meeting :=
  let filtered := s.meetings.filter (matchesFilters effStatus s)
  match s.sortColumn with
  | some col => jsSortBy (mtCompare effStatus col s.sortDirection) filtered
  | none => filtered

/-- Source `paginatedMeetings` (`Meetings.tsx` lines 252-255). -/
def paginatedMeetings (effStatus : Meeting → String) (s : MTState) : List Meeting :=
  let startIndex := (s.currentPage - 1) * ITEMS_PER_PAGE
  jsSlice (sortedAndFilteredMeetings effStatus s) startIndex (startIndex + ITEMS_PER_PAGE)

/-- The effect at `Meetings.tsx` lines 245-248 resets the page whenever
`sortedAndFilteredMeetings` is recomputed. -/
def applyFilterEffect (s : MTState) : MTState := { s with currentPage := 1 }

/-- The meetings search input. -/
def setSearch (s : MTState) (q : String) : MTState :=
  if q = s.searchTerm then s
  else applyFilterEffect { s with searchTerm := q }

/-- The meetings status filter. -/
def setStatusFilter (s : MTState) (v : String) : MTState :=
  if v = s.statusFilter then s
  else applyFilterEffect { s with statusFilter := v }

/-- The meetings organizer filter. -/
def setOrganizerFilter (s : MTState) (v : String) : MTState :=
  if v = s.organizerFilter then s
  else applyFilterEffect { s with organizerFilter := v }

/-- Source `handleSort` (`Meetings.tsx` lines 184-191). -/
def handleSort (s : MTState) (col : MSortCol) : MTState :=
  applyFilterEffect <|
    if s.sortColumn = some col then
      { s with sortDirection := s.sortDirection.toggle }
    else
      { s with sortColumn := some col, sortDirection := .asc }

/-- Source `handleSelectAll` (`Meetings.tsx` lines 300-306): checking selects
every row of the visible page (the page never exceeds 25 rows). -/
def handleSelectAll (effStatus : Meeting → String) (s : MTState) (checked : Bool) : MTState :=
  if checked then
    { s with selectedMeetings := (paginatedMeetings effStatus s).map (fun m => m.id) }
  else
    { s with selectedMeetings := [] }

/-- Source `isAllSelected` (`Meetings.tsx` line 316):
`paginatedMeetings.length > 0 && paginatedMeetings.every(m =>
selectedMeetings.includes(m.id))`. -/
def isAllSelected (effStatus : Meeting → String) (s : MTState) : Bool :=
  decide (0 < (paginatedMeetings effStatus s).length) &&
  (paginatedMeetings effStatus s).all (fun m => s.selectedMeetings.contains m.id)

/-- Backend calls that the meetings bulk delete can issue. -/
inductive MeetingCall where
  | deleteMeetingsByIds (ids : List String)
deriving DecidableEq

/-- Result of a run of the meetings `handleBulkDelete`. -/
structure BulkDeleteRun where
  calls : List MeetingCall
  meetingsDb : List Meeting
  selection : List String
deriving DecidableEq

/-- Source `handleBulkDelete` (`Meetings.tsx` lines 278-298): one batched
`delete().in('id', selectedMeetings)`; on success the selection is
cleared, on an error the `catch` branch only shows a toast and the
selection is untouched. -/
def handleBulkDelete (sel : List String) (db : List Meeting) (fails : Bool) : BulkDeleteRun :=
  if fails then ⟨[.deleteMeetingsByIds sel], db, sel⟩
  else ⟨[.deleteMeetingsByIds sel], db.filter (fun m => !(sel.contains m.id)), []⟩

end MT

namespace LV

/-- The `Deal` record as used by `src/components/ListView.tsx` (type
`Deal` from `@/types/deal`): the fields the list view reads. -/
structure Deal where
  id : String
  deal_name : Option String := none
  project_name : Option String := none
  lead_name : Option String := none
  customer_name : Option String := none
  region : Option String := none
  lead_owner : Option String := none
  stage : String := ""
  priority : Option Int := none
  probability : Option Int := none
  handoff_status : Option String := none
  total_contract_value : Option Int := none
  total_revenue : Option Int := none
  project_duration : Option Int := none
  expected_closing_date : Option String := none
  start_date : Option String := none
  end_date : Option String := none
  proposal_due_date : Option String := none
  created_at : Option String := none
  modified_at : Option String := none
deriving DecidableEq

/-- Dynamic field access `deal[sortBy as keyof Deal]` for the string
branch of the deal sort. -/
def Deal.get (d : Deal) (field : String) : JSVal :=
  if field = "id" then .vstr d.id
  else if field = "deal_name" then ovs d.deal_name
  else if field = "project_name" then ovs d.project_name
  else if field = "lead_name" then ovs d.lead_name
  else if field = "customer_name" then ovs d.customer_name
  else if field = "region" then ovs d.region
  else if field = "lead_owner" then ovs d.lead_owner
  else if field = "stage" then .vstr d.stage
  else if field = "priority" then ovn d.priority
  else if field = "probability" then ovn d.probability
  else if field = "handoff_status" then ovs d.handoff_status
  else if field = "total_contract_value" then ovn d.total_contract_value
  else if field = "total_revenue" then ovn d.total_revenue
  else if field = "project_duration" then ovn d.project_duration
  else if field = "expected_closing_date" then ovs d.expected_closing_date
  else if field = "start_date" then ovs d.start_date
  else if field = "end_date" then ovs d.end_date
  else if field = "proposal_due_date" then ovs d.proposal_due_date
  else if field = "created_at" then ovs d.created_at
  else if field = "modified_at" then ovs d.modified_at
  else .vnull

/-- The numeric field read of the deal sort and filters
(`a[sortBy] || 0`). -/
def Deal.getNum (d : Deal) (field : String) : Option Int :=
  if field = "priority" then d.priority
  else if field = "probability" then d.probability
  else if field = "project_duration" then d.project_duration
  else if field = "total_contract_value" then d.total_contract_value
  else if field = "total_revenue" then d.total_revenue
  else none

/-- The timestamp-string read of the deal sort date branch. -/
def Deal.getDateStr (d : Deal) (field : String) : Option String :=
  if field = "expected_closing_date" then d.expected_closing_date
  else if field = "start_date" then d.start_date
  else if field = "end_date" then d.end_date
  else if field = "created_at" then d.created_at
  else if field = "modified_at" then d.modified_at
  else if field = "proposal_due_date" then d.proposal_due_date
  else none

/-- The advanced filter state (`DealsAdvancedFilter`, `ListView.tsx`
lines 49-58); the `probabilityRange` pair is split into its two
bounds. -/
structure AdvancedFilterState where
  stages : List String := []
  regions : List String := []
  leadOwners : List String := []
  priorities : List String := []
  probabilities : List String := []
  handoffStatuses : List String := []
  searchTerm : String := ""
  probabilityRangeLo : Int := 0
  probabilityRangeHi : Int := 100
deriving DecidableEq

/-- The state of the deals `ListView` controller (`ListView.tsx` lines
47-63); `selectedDeals` is a `Set` of ids in the source and is modelled
as a list (the fetched rows have unique ids). -/
structure LVState where
  deals : List Deal := []
  searchTerm : String := ""
  leadOwnerFilter : String := "all"
  filters : AdvancedFilterState := {}
  sortBy : String := "modified_at"
  sortOrder : SortDir := .desc
  selectedDeals : List String := []
  currentPage : Nat := 1
  itemsPerPage : Nat := 25
deriving DecidableEq

/-- Model of `[searchTerm, filters.searchTerm].filter(Boolean).join('
').toLowerCase()` (`ListView.tsx` line 366). -/
def combinedSearchTerms (searchTerm filtersSearch : String) : String :=
  jsToLower (String.intercalate " " ([searchTerm, filtersSearch].filter (fun t => !(t = ""))))

/-- Model of `String(x || '')` for an optional numeric field. -/
def numFieldToJsStr (o : Option Int) : String :=
  match o with
  | none => ""
  | some 0 => ""
  | some n => toString n

/-- The deal filter predicate (`ListView.tsx` lines 364-390). -/
def matchesFilters (s : LVState) (d : Deal) : Bool :=
  let allSearch := combinedSearchTerms s.searchTerm s.filters.searchTerm
  let matchesSearch := allSearch = "" ||
    optIncludes d.deal_name allSearch ||
    optIncludes d.project_name allSearch ||
    optIncludes d.lead_name allSearch ||
    optIncludes d.customer_name allSearch ||
    optIncludes d.region allSearch
  let matchesLeadOwnerDropdown := s.leadOwnerFilter = "all" || d.lead_owner = some s.leadOwnerFilter
  let matchesStages := s.filters.stages.isEmpty || s.filters.stages.contains d.stage
  let matchesRegions := s.filters.regions.isEmpty || s.filters.regions.contains (d.region.getD "")
  let matchesLeadOwners := s.filters.leadOwners.isEmpty || s.filters.leadOwners.contains (d.lead_owner.getD "")
  let matchesPriorities := s.filters.priorities.isEmpty || s.filters.priorities.contains (numFieldToJsStr d.priority)
  let matchesProbabilities := s.filters.probabilities.isEmpty || s.filters.probabilities.contains (numFieldToJsStr d.probability)
  let matchesHandoffStatuses := s.filters.handoffStatuses.isEmpty || s.filters.handoffStatuses.contains (d.handoff_status.getD "")
  let dealProbability := d.probability.getD 0
  let matchesProbabilityRange := s.filters.probabilityRangeLo ≤ dealProbability &&
    dealProbability ≤ s.filters.probabilityRangeHi
  matchesSearch && matchesLeadOwnerDropdown && matchesStages && matchesRegions &&
    matchesLeadOwners && matchesPriorities && matchesProbabilities &&
    matchesHandoffStatuses && matchesProbabilityRange

/-- The per-field deal sort key (`ListView.tsx` lines 396-412):
numeric fields and currency fields read `|| 0`, date fields go through
`new Date(...)` (the abstract `parseDate`, with epoch 0 for a missing
value), anything else is `String(x || '').toLowerCase()`. -/
def lvSortKey (parseDate : String → Int) (sortBy : String) (d : Deal) : SKey :=
  if ["priority", "probability", "project_duration"].contains sortBy then
    .knum ((d.getNum sortBy).getD 0)
  else if ["total_contract_value", "total_revenue"].contains sortBy then
    .knum ((d.getNum sortBy).getD 0)
  else if ["expected_closing_date", "start_date", "end_date", "created_at",
      "modified_at", "proposal_due_date"].contains sortBy then
    .knum (match d.getDateStr sortBy with | some t => parseDate t | none => 0)
  else
    .kstr (jsToLower (jsOrEmptyStr (d.get sortBy)).toJsString)

/-- The deal sort comparator (`ListView.tsx` lines 392-419). -/
def lvCompare (parseDate : String → Int) (sortBy : String) (sortOrder : SortDir)
    (a b : Deal) : Int :=
  let av := lvSortKey parseDate sortBy a
  let bv := lvSortKey parseDate sortBy b
  match sortOrder with
  | .asc => if skeyLt av bv then -1 else if skeyLt bv av then 1 else 0
  | .desc => if skeyLt bv av then -1 else if skeyLt av bv then 1 else 0

/-- Source `filteredAndSortedDeals` (`ListView.tsx` lines 363-419). -/
def filteredAndSortedDeals (parseDate : String → Int) (s : LVState) : List Deal :=
  jsSortBy (lvCompare parseDate s.sortBy s.sortOrder) (s.deals.filter (matchesFilters s))

/-- Source `paginatedDeals` (`ListView.tsx` lines 422-424). -/
def paginatedDeals (parseDate : String → Int) (s : LVState) : List Deal :=
  let startIndex := (s.currentPage - 1) * s.itemsPerPage
  jsSlice (filteredAndSortedDeals parseDate s) startIndex (startIndex + s.itemsPerPage)

/-- Source `Math.ceil(filteredAndSortedDeals.length / itemsPerPage)`
(`ListView.tsx` line 422). -/
def totalPages (parseDate : String → Int) (s : LVState) : Nat :=
  ((filteredAndSortedDeals parseDate s).length + s.itemsPerPage - 1) / s.itemsPerPage

/-- The page-reset effect (`ListView.tsx` lines 427-429) watches only
`[filters, searchTerm, leadOwnerFilter]` — the sort pair is not a
dependency. -/
def resetPageEffect (s : LVState) : LVState := { s with currentPage := 1 }

/-- The deals search input. -/
def setSearch (s : LVState) (q : String) : LVState :=
  if q = s.searchTerm then s
  else resetPageEffect { s with searchTerm := q }

/-- The lead-owner dropdown. -/
def setLeadOwnerFilter (s : LVState) (v : String) : LVState :=
  if v = s.leadOwnerFilter then s
  else resetPageEffect { s with leadOwnerFilter := v }

/-- Committing the advanced filter state. -/
def setFilters (s : LVState) (f : AdvancedFilterState) : LVState :=
  if f = s.filters then s
  else resetPageEffect { s with filters := f }

/-- The column-header click handler (`ListView.tsx` lines 556-563): the
same column toggles the order, a different column becomes the sort
column with order DESCENDING, and `currentPage` is left unchanged (the
reset effect does not watch the sort pair). -/
def headerSortClick (s : LVState) (field : String) : LVState :=
  if s.sortBy = field then
    { s with sortOrder := s.sortOrder.toggle }
  else
    { s with sortBy := field, sortOrder := .desc }

/-- The deals page-size select; it does not reset the page. -/
def setItemsPerPage (s : LVState) (n : Nat) : LVState := { s with itemsPerPage := n }

/-- The next-page button (`ListView.tsx` line 745). -/
def nextPage (parseDate : String → Int) (s : LVState) : LVState :=
  { s with currentPage := min (totalPages parseDate s) (s.currentPage + 1) }

/-- Source `handleSelectAll` (`ListView.tsx` lines 259-265): checking selects
the ids of ALL filtered-and-sorted deals — not only the visible page,
with no cap; unchecking clears the selection. -/
def handleSelectAll (parseDate : String → Int) (s : LVState) (checked : Bool) : LVState :=
  if checked then
    { s with selectedDeals := (filteredAndSortedDeals parseDate s).map (fun d => d.id) }
  else
    { s with selectedDeals := [] }

/-- The header checkbox state (`ListView.tsx` line 542):
`selectedDeals.size === paginatedDeals.length && paginatedDeals.length >
0` — a count comparison. -/
def selectAllIndicator (parseDate : String → Int) (s : LVState) : Bool :=
  decide (s.selectedDeals.length = (paginatedDeals parseDate s).length) &&
  decide (0 < (paginatedDeals parseDate s).length)

end LV

namespace TL

/-- The `Task` record as used by `src/components/tasks/TaskListView.tsx`:
the fields its filter reads. -/
structure Task where
  id : String
  title : String
  description : Option String := none
  status : String := ""
  priority : String := ""
  assigned_to : Option String := none
deriving DecidableEq

/-- The state of the `TaskListView` controller (`TaskListView.tsx`
lines 88-97). -/
structure TLState where
  tasks : List Task := []
  searchTerm : String := ""
  statusFilter : String := "all"
  priorityFilter : String := "all"
  assignedToFilter : String := "all"
  currentPage : Nat := 1
  itemsPerPage : Nat := 25
deriving DecidableEq

/-- The task filter (`TaskListView.tsx` lines 114-123). -/
def matchesFilters (s : TLState) (t : Task) : Bool :=
  (jsIncludes (jsToLower t.title) (jsToLower s.searchTerm) ||
    optIncludes t.description (jsToLower s.searchTerm)) &&
  (s.statusFilter = "all" || t.status = s.statusFilter) &&
  (s.priorityFilter = "all" || t.priority = s.priorityFilter) &&
  (s.assignedToFilter = "all" || t.assigned_to = some s.assignedToFilter)

/-- Source `filteredTasks` (`TaskListView.tsx` lines 114-123); tasks are not
sorted. -/
def filteredTasks (s : TLState) : List Task :=
  s.tasks.filter (matchesFilters s)

/-- Source `paginatedTasks` (`TaskListView.tsx` lines 131-133). -/
def paginatedTasks (s : TLState) : List Task :=
  let startIndex := (s.currentPage - 1) * s.itemsPerPage
  jsSlice (filteredTasks s) startIndex (startIndex + s.itemsPerPage)

/-- The page-reset effect (`TaskListView.tsx` lines 126-128) watches
the search term and the three filters, not `itemsPerPage`. -/
def resetPageEffect (s : TLState) : TLState := { s with currentPage := 1 }

/-- The task search input. -/
def setSearch (s : TLState) (q : String) : TLState :=
  if q = s.searchTerm then s
  else resetPageEffect { s with searchTerm := q }

/-- The task status filter. -/
def setStatusFilter (s : TLState) (v : String) : TLState :=
  if v = s.statusFilter then s
  else resetPageEffect { s with statusFilter := v }

/-- The task priority filter. -/
def setPriorityFilter (s : TLState) (v : String) : TLState :=
  if v = s.priorityFilter then s
  else resetPageEffect { s with priorityFilter := v }

/-- The task assignee filter. -/
def setAssignedToFilter (s : TLState) (v : String) : TLState :=
  if v = s.assignedToFilter then s
  else resetPageEffect { s with assignedToFilter := v }

/-- The task page-size select; it does not reset the page. -/
def setItemsPerPage (s : TLState) (n : Nat) : TLState := { s with itemsPerPage := n }

end TL

/-- The selected account ids that survive the bulk pre-screen of
`AT.handleBulkDelete`: those with no linked contact and no linked lead
(shown equal to the pre-screen computation in
`at_deletable_eq_filter_unlinked` below). -/
def AT.deletableOf (db : AT.Backend) (sel : List String) : List String :=
  sel.filter (fun id => !(AT.hasLinkedContacts db id || AT.hasLinkedLeads db id))

/-! Concrete data used by the witnesses and counterexamples. -/

/-- A contact whose company matches the search term "acme". -/
def exContact : CT.Contact :=
  { id := "c1", contact_name := "Jane Doe", company_name := some "Acme Corp" }

/-- A second contact. -/
def exContactB : CT.Contact := { id := "c2", contact_name := "Bob Stone" }

/-- A contact table showing two contacts with no filters active. -/
def ctExState : CT.CTState := { contacts := [exContact, exContactB] }

/-- A contact table whose page shows `exContact` while the selection
holds one id that is not on the page. -/
def ctIndicatorState : CT.CTState :=
  { contacts := [exContact], selectedContacts := ["zz"] }

/-- Thirty fetched contacts. -/
def exContacts30 : List CT.Contact :=
  (List.range 30).map (fun i => { id := "c" ++ toString i, contact_name := "Contact" })

/-- Thirty contacts, page size 25: go to page 2, then enlarge the page
size to 100 — the page number stays 2 and the window starts at row 100. -/
def ctPageSizeState : CT.CTState :=
  CT.setItemsPerPage (CT.nextPage { contacts := exContacts30 }) 100

/-- A contact with no score. -/
def cScoreNull : CT.Contact := { id := "s1", contact_name := "Null Score" }

/-- A contact with a negative score. -/
def cScoreNeg : CT.Contact :=
  { id := "s2", contact_name := "Negative Score", score := some (-5) }

/-- A deal with only an id. -/
def exDeal (i : Nat) : LV.Deal := { id := "d" ++ toString i }

/-- Eleven fetched deals. -/
def lvDeals : List LV.Deal := (List.range 11).map exDeal

/-- The deals list in its initial state. -/
def lvInitState : LV.LVState := { deals := lvDeals }

/-- Eleven deals at page size 10, after pressing the next-page button:
page 2 of 2 is shown. -/
def lvPage2State : LV.LVState :=
  LV.nextPage (fun _ => 0) (LV.setItemsPerPage lvInitState 10)

/-- A lead. -/
def exLead : LT.Lead := { id := "l1", lead_name := "Lead One" }

/-- A lead table showing one lead. -/
def ltExState : LT.LTState := { leads := [exLead] }

/-- A meeting. -/
def exMeeting : MT.Meeting := { id := "m1", subject := "Kickoff" }

/-- A second meeting. -/
def exMeetingB : MT.Meeting := { id := "m2", subject := "Review" }

/-- A meetings page showing two meetings. -/
def mtExState : MT.MTState := { meetings := [exMeeting, exMeetingB] }

/-- A meetings page where the one visible meeting is selected. -/
def mtSelState : MT.MTState := { meetings := [exMeeting], selectedMeetings := ["m1"] }

/-- An account that has a linked contact in `atExBackend`. -/
def exAccount1 : AT.Account := { id := "a1", company_name := "Linked GmbH" }

/-- An account with no links in `atExBackend`. -/
def exAccount2 : AT.Account := { id := "a2", company_name := "Free GmbH" }

/-- A backend with two accounts, one contact linked to account `a1`,
and no leads. -/
def atExBackend : AT.Backend :=
  { accounts := [exAccount1, exAccount2],
    contacts := [{ id := "ct1", account_id := some "a1" }],
    leads := [] }

/-- An account table showing two accounts. -/
def atExState : AT.ATState := { accounts := [exAccount1, exAccount2] }

/-- Action items: one belongs to a selected lead, one does not. -/
def exActionItems : List LT.ActionItem :=
  [{ id := "ai1", lead_id := "l1" }, { id := "ai2", lead_id := "lx" }]

/-- Three selected lead ids. -/
def exSel3 : List String := ["l1", "l2", "l3"]

/-- A task list with one task. -/
def tlExState : TL.TLState := { tasks := [{ id := "t1", title := "Write report" }] }

/-! General lemmas about the JavaScript array models. -/

theorem mem_jsSortBy {α : Type} (cmp : α → α → Int) (l : List α) (x : α) :
    x ∈ jsSortBy cmp l ↔ x ∈ l := List.mem_insertionSort _

theorem mem_of_mem_jsSlice {α : Type} {l : List α} {a b : Nat} {x : α}
    (h : x ∈ jsSlice l a b) : x ∈ l :=
  List.drop_subset _ _ (List.take_subset _ _ h)

theorem mem_of_mem_filter {α : Type} {p : α → Bool} {l : List α} {x : α}
    (h : x ∈ l.filter p) : x ∈ l := (List.mem_filter.mp h).1

theorem length_jsSlice_le {α : Type} (l : List α) (a b : Nat) :
    (jsSlice l a b).length ≤ b - a := by
  simp [jsSlice]

theorem localeCompare_empty_lt (t : String) (h : t ≠ "") : localeCompare "" t < 0 := by
  obtain ⟨data⟩ := t
  cases data with
  | nil => exact absurd rfl h
  | cons c cs =>
    have h2 : localeCompare "" (String.mk (c :: cs)) = -1 := rfl
    rw [h2]
    decide

theorem ovs_cases (o : Option String) : ovs o = .vnull ∨ ∃ s, ovs o = .vstr s := by
  cases o with
  | none => exact Or.inl rfl
  | some s => exact Or.inr ⟨s, rfl⟩

theorem strOrNull_ite (c : Prop) [Decidable c] (a b : JSVal)
    (ha : a = JSVal.vnull ∨ ∃ s, a = JSVal.vstr s)
    (hb : b = JSVal.vnull ∨ ∃ s, b = JSVal.vstr s) :
    (if c then a else b) = JSVal.vnull ∨ ∃ s, (if c then a else b) = JSVal.vstr s := by
  split
  · exact ha
  · exact hb

/-! Subset lemmas for the contact filter pipeline. -/

theorem ct_searchFiltered_subset (s : CT.CTState) :
    ∀ c ∈ CT.searchFiltered s, c ∈ s.contacts := by
  intro c hc
  exact mem_of_mem_filter hc

theorem ct_sourceFiltered_subset (s : CT.CTState) :
    ∀ c ∈ CT.sourceFiltered s, c ∈ CT.searchFiltered s := by
  intro c hc
  unfold CT.sourceFiltered at hc
  split at hc
  · exact mem_of_mem_filter hc
  · exact hc

theorem ct_ownerFiltered_subset (s : CT.CTState) :
    ∀ c ∈ CT.ownerFiltered s, c ∈ CT.sourceFiltered s := by
  intro c hc
  unfold CT.ownerFiltered at hc
  split at hc
  · exact mem_of_mem_filter hc
  · exact hc

theorem ct_segmentFiltered_subset (s : CT.CTState) :
    ∀ c ∈ CT.segmentFiltered s, c ∈ CT.ownerFiltered s := by
  intro c hc
  unfold CT.segmentFiltered at hc
  split at hc
  · exact mem_of_mem_filter hc
  · exact hc

theorem ct_tagFiltered_subset (s : CT.CTState) :
    ∀ c ∈ CT.tagFiltered s, c ∈ CT.segmentFiltered s := by
  intro c hc
  unfold CT.tagFiltered at hc
  split at hc
  · split at hc
    · exact mem_of_mem_filter hc
    · exact hc
  · exact hc

theorem ct_filteredContacts_subset (s : CT.CTState) :
    ∀ c ∈ CT.filteredContacts s, c ∈ s.contacts := by
  intro c hc
  have hc2 : c ∈ CT.tagFiltered s := by
    unfold CT.filteredContacts at hc
    split at hc
    · exact (mem_jsSortBy _ _ _).mp hc
    · exact hc
  exact ct_searchFiltered_subset s c (ct_sourceFiltered_subset s c (ct_ownerFiltered_subset s c
    (ct_segmentFiltered_subset s c (ct_tagFiltered_subset s c hc2))))

theorem ct_pageContacts_subset (s : CT.CTState) :
    ∀ c ∈ CT.pageContacts s, c ∈ CT.filteredContacts s := by
  intro c hc
  exact mem_of_mem_jsSlice hc

/-! Subset lemmas for the lead filter pipeline. -/

theorem lt_searchFiltered_subset (s : LT.LTState) :
    ∀ l ∈ LT.searchFiltered s, l ∈ s.leads := by
  intro l hl
  exact mem_of_mem_filter hl

theorem lt_statusFiltered_subset (s : LT.LTState) :
    ∀ l ∈ LT.statusFiltered s, l ∈ LT.searchFiltered s := by
  intro l hl
  unfold LT.statusFiltered at hl
  split at hl
  · exact mem_of_mem_filter hl
  · exact hl

theorem lt_ownerFiltered_subset (s : LT.LTState) :
    ∀ l ∈ LT.ownerFiltered s, l ∈ LT.statusFiltered s := by
  intro l hl
  unfold LT.ownerFiltered at hl
  split at hl
  · exact mem_of_mem_filter hl
  · exact hl

theorem lt_dateFromFiltered_subset (pd : String → Int) (s : LT.LTState) :
    ∀ l ∈ LT.dateFromFiltered pd s, l ∈ LT.ownerFiltered s := by
  intro l hl
  unfold LT.dateFromFiltered at hl
  split at hl
  · split at hl
    · exact mem_of_mem_filter hl
    · exact hl
  · exact hl

theorem lt_dateFiltered_subset (pd : String → Int) (s : LT.LTState) :
    ∀ l ∈ LT.dateFiltered pd s, l ∈ LT.dateFromFiltered pd s := by
  intro l hl
  unfold LT.dateFiltered at hl
  split at hl
  · split at hl
    · exact mem_of_mem_filter hl
    · exact hl
  · exact hl

theorem lt_filteredLeads_subset (pd : String → Int) (s : LT.LTState) :
    ∀ l ∈ LT.filteredLeads pd s, l ∈ s.leads := by
  intro l hl
  have hl2 : l ∈ LT.dateFiltered pd s := by
    unfold LT.filteredLeads at hl
    split at hl
    · exact (mem_jsSortBy _ _ _).mp hl
    · exact hl
  exact lt_searchFiltered_subset s l (lt_statusFiltered_subset s l (lt_ownerFiltered_subset s l
    (lt_dateFromFiltered_subset pd s l (lt_dateFiltered_subset pd s l hl2))))

theorem lt_page_subset (pd : String → Int) (s : LT.LTState) :
    ∀ l ∈ LT.getCurrentPageLeads pd s, l ∈ LT.filteredLeads pd s := by
  intro l hl
  exact mem_of_mem_jsSlice hl

/-! Subset lemmas for the account filter pipeline. -/

theorem at_searchFiltered_subset (s : AT.ATState) :
    ∀ a ∈ AT.searchFiltered s, a ∈ s.accounts := by
  intro a ha
  exact mem_of_mem_filter ha

theorem at_statusFiltered_subset (s : AT.ATState) :
    ∀ a ∈ AT.statusFiltered s, a ∈ AT.searchFiltered s := by
  intro a ha
  unfold AT.statusFiltered at ha
  split at ha
  · exact mem_of_mem_filter ha
  · exact ha

theorem at_ownerFiltered_subset (s : AT.ATState) :
    ∀ a ∈ AT.ownerFiltered s, a ∈ AT.statusFiltered s := by
  intro a ha
  unfold AT.ownerFiltered at ha
  split at ha
  · exact mem_of_mem_filter ha
  · exact ha

theorem at_tagFiltered_subset (s : AT.ATState) :
    ∀ a ∈ AT.tagFiltered s, a ∈ AT.ownerFiltered s := by
  intro a ha
  unfold AT.tagFiltered at ha
  split at ha
  · split at ha
    · exact mem_of_mem_filter ha
    · exact ha
  · exact ha

theorem at_filteredAccounts_subset (s : AT.ATState) :
    ∀ a ∈ AT.filteredAccounts s, a ∈ s.accounts := by
  intro a ha
  have ha2 : a ∈ AT.tagFiltered s := by
    unfold AT.filteredAccounts at ha
    split at ha
    · exact (mem_jsSortBy _ _ _).mp ha
    · exact ha
  exact at_searchFiltered_subset s a (at_statusFiltered_subset s a (at_ownerFiltered_subset s a
    (at_tagFiltered_subset s a ha2)))

theorem at_page_subset (s : AT.ATState) :
    ∀ a ∈ AT.getCurrentPageAccounts s, a ∈ AT.filteredAccounts s := by
  intro a ha
  exact mem_of_mem_jsSlice ha

/-! Subset lemmas for the meetings and deals pipelines. -/

theorem mt_sorted_subset (effStatus : MT.Meeting → String) (s : MT.MTState) :
    ∀ m ∈ MT.sortedAndFilteredMeetings effStatus s, m ∈ s.meetings := by
  intro m hm
  unfold MT.sortedAndFilteredMeetings at hm
  split at hm
  · exact mem_of_mem_filter ((mem_jsSortBy _ _ _).mp hm)
  · exact mem_of_mem_filter hm

theorem mt_page_subset (effStatus : MT.Meeting → String) (s : MT.MTState) :
    ∀ m ∈ MT.paginatedMeetings effStatus s, m ∈ MT.sortedAndFilteredMeetings effStatus s := by
  intro m hm
  exact mem_of_mem_jsSlice hm

theorem lv_filtered_subset (pd : String → Int) (s : LV.LVState) :
    ∀ d ∈ LV.filteredAndSortedDeals pd s, d ∈ s.deals := by
  intro d hd
  exact mem_of_mem_filter ((mem_jsSortBy _ _ _).mp hd)

theorem lv_page_subset (pd : String → Int) (s : LV.LVState) :
    ∀ d ∈ LV.paginatedDeals pd s, d ∈ LV.filteredAndSortedDeals pd s := by
  intro d hd
  exact mem_of_mem_jsSlice hd

/-! Lemmas about the account referential-integrity pre-screen. -/

theorem at_mem_linked_iff (db : AT.Backend) (sel : List String) (accId : String)
    (hmem : accId ∈ sel) :
    accId ∈ (db.contacts.filterMap (fun c =>
        c.account_id.bind (fun a => if sel.contains a then some a else none)) ++
      db.leads.filterMap (fun l =>
        l.account_id.bind (fun a => if sel.contains a then some a else none)))
    ↔ (AT.hasLinkedContacts db accId = true ∨ AT.hasLinkedLeads db accId = true) := by
  have hsel : sel.contains accId = true := List.elem_iff.mpr hmem
  simp only [List.mem_append, List.mem_filterMap, Option.bind_eq_some,
    AT.hasLinkedContacts, AT.hasLinkedLeads, List.any_eq_true, decide_eq_true_eq]
  constructor
  · rintro (⟨c, hc, a, ha, hif⟩ | ⟨l, hl, a, ha, hif⟩)
    · left
      refine ⟨c, hc, ?_⟩
      split at hif
      · injection hif with h2
        rw [← h2]
        exact ha
      · cases hif
    · right
      refine ⟨l, hl, ?_⟩
      split at hif
      · injection hif with h2
        rw [← h2]
        exact ha
      · cases hif
  · rintro (⟨c, hc, ha⟩ | ⟨l, hl, ha⟩)
    · exact Or.inl ⟨c, hc, accId, ha, by simp [hsel, hmem]⟩
    · exact Or.inr ⟨l, hl, accId, ha, by simp [hsel, hmem]⟩

theorem at_deletable_eq_filter_unlinked (db : AT.Backend) (sel : List String) :
    (sel.filter (fun id => !((db.contacts.filterMap (fun c =>
        c.account_id.bind (fun a => if sel.contains a then some a else none)) ++
      db.leads.filterMap (fun l =>
        l.account_id.bind (fun a => if sel.contains a then some a else none))).contains id)))
    = AT.deletableOf db sel := by
  unfold AT.deletableOf
  apply List.filter_congr
  intro id hid
  have h := at_mem_linked_iff db sel id hid
  by_cases hl : AT.hasLinkedContacts db id = true ∨ AT.hasLinkedLeads db id = true
  · have hm : ((db.contacts.filterMap (fun c =>
        c.account_id.bind (fun a => if sel.contains a then some a else none)) ++
      db.leads.filterMap (fun l =>
        l.account_id.bind (fun a => if sel.contains a then some a else none))).contains id) = true :=
      List.elem_iff.mpr (h.mpr hl)
    rw [hm]
    rcases hl with hl | hl
    · simp [hl]
    · simp [hl]
  · have hm : ¬ (id ∈ (db.contacts.filterMap (fun c =>
        c.account_id.bind (fun a => if sel.contains a then some a else none)) ++
      db.leads.filterMap (fun l =>
        l.account_id.bind (fun a => if sel.contains a then some a else none)))) :=
      fun hx => hl (h.mp hx)
    have hm2 : ((db.contacts.filterMap (fun c =>
        c.account_id.bind (fun a => if sel.contains a then some a else none)) ++
      db.leads.filterMap (fun l =>
        l.account_id.bind (fun a => if sel.contains a then some a else none))).contains id) = false := by
      rw [← Bool.not_eq_true]
      intro hx
      exact hm (List.elem_iff.mp hx)
    rw [hm2]
    push_neg at hl
    simp [hl.1, hl.2]

/-- C1: for every fetched collection and every combination of search
term, dropdown filters, sort column, sort direction, page number and
page size, the rows of the displayed page window are a subset of the
filtered rows, and the filtered rows are a subset of the full fetched
collection, in each of the five table controllers (contacts, leads,
accounts, meetings, deals). -/
theorem c1_paginated_subset_filtered_subset_all :
    (∀ s : CT.CTState, (∀ c ∈ CT.pageContacts s, c ∈ CT.filteredContacts s) ∧
      (∀ c ∈ CT.filteredContacts s, c ∈ s.contacts)) ∧
    (∀ (pd : String → Int) (s : LT.LTState),
      (∀ l ∈ LT.getCurrentPageLeads pd s, l ∈ LT.filteredLeads pd s) ∧
      (∀ l ∈ LT.filteredLeads pd s, l ∈ s.leads)) ∧
    (∀ s : AT.ATState, (∀ a ∈ AT.getCurrentPageAccounts s, a ∈ AT.filteredAccounts s) ∧
      (∀ a ∈ AT.filteredAccounts s, a ∈ s.accounts)) ∧
    (∀ (effStatus : MT.Meeting → String) (s : MT.MTState),
      (∀ m ∈ MT.paginatedMeetings effStatus s, m ∈ MT.sortedAndFilteredMeetings effStatus s) ∧
      (∀ m ∈ MT.sortedAndFilteredMeetings effStatus s, m ∈ s.meetings)) ∧
    (∀ (pd : String → Int) (s : LV.LVState),
      (∀ d ∈ LV.paginatedDeals pd s, d ∈ LV.filteredAndSortedDeals pd s) ∧
      (∀ d ∈ LV.filteredAndSortedDeals pd s, d ∈ s.deals)) := by
  refine ⟨?_, ?_, ?_, ?_, ?_⟩
  · exact fun s => ⟨ct_pageContacts_subset s, ct_filteredContacts_subset s⟩
  · exact fun pd s => ⟨lt_page_subset pd s, lt_filteredLeads_subset pd s⟩
  · exact fun s => ⟨at_page_subset s, at_filteredAccounts_subset s⟩
  · exact fun effStatus s => ⟨mt_page_subset effStatus s, mt_sorted_subset effStatus s⟩
  · exact fun pd s => ⟨lv_page_subset pd s, lv_filtered_subset pd s⟩

/-- C1 witness: on a concrete two-contact table, a contact shown on the
page is in the filtered rows and in the fetched collection. -/
theorem c1_witness :
    exContact ∈ CT.filteredContacts ctExState ∧ exContact ∈ ctExState.contacts := by
  refine ⟨?_, ?_⟩
  · exact (c1_paginated_subset_filtered_subset_all.1 ctExState).1 exContact (by decide)
  · exact (c1_paginated_subset_filtered_subset_all.1 ctExState).2 exContact (by decide)

/-- C2 counterexample: in the deals `ListView`, changing the sort key
does not reset `currentPage` to 1 — the page-reset effect watches only
the filters, the search term and the owner dropdown.  At a concrete
state on page 2, clicking the header of a different column keeps
`currentPage = 2`. -/
theorem c2_counterexample :
    lvPage2State.currentPage = 2 ∧
    lvPage2State.sortBy ≠ "deal_name" ∧
    (LV.headerSortClick lvPage2State "deal_name").sortBy = "deal_name" ∧
    (LV.headerSortClick lvPage2State "deal_name").currentPage = 2 := by
  refine ⟨by decide, by decide, by decide, by decide⟩

/-- C2 (amended): changing any dropdown filter or the search term sets
`currentPage` back to 1 in every table controller, and changing the
sort key does so in the contact, lead, account and meetings
controllers; in the deals `ListView`, however, a sort-header click
leaves `currentPage` unchanged. -/
theorem c2_filter_search_sort_reset_page :
    (∀ (s : CT.CTState) (v : String), v ≠ s.debouncedSearchTerm → (CT.setSearch s v).currentPage = 1) ∧
    (∀ (s : CT.CTState) (v : String), v ≠ s.sourceFilter → (CT.setSourceFilter s v).currentPage = 1) ∧
    (∀ (s : CT.CTState) (v : String), v ≠ s.ownerFilter → (CT.setOwnerFilter s v).currentPage = 1) ∧
    (∀ (s : CT.CTState) (v : String), v ≠ s.segmentFilter → (CT.setSegmentFilter s v).currentPage = 1) ∧
    (∀ (s : CT.CTState) (v : Option String), v ≠ s.tagFilter → (CT.setTagFilter s v).currentPage = 1) ∧
    (∀ (s : CT.CTState) (f : String), (CT.handleSort s f).currentPage = 1) ∧
    (∀ (s : LT.LTState) (v : String), v ≠ s.debouncedSearchTerm → (LT.setSearch s v).currentPage = 1) ∧
    (∀ (s : LT.LTState) (v : String), v ≠ s.statusFilter → (LT.setStatusFilter s v).currentPage = 1) ∧
    (∀ (s : LT.LTState) (v : String), v ≠ s.ownerFilter → (LT.setOwnerFilter s v).currentPage = 1) ∧
    (∀ (s : LT.LTState) (v : Option String), v ≠ s.dateFromFilter → (LT.setDateFromFilter s v).currentPage = 1) ∧
    (∀ (s : LT.LTState) (v : Option String), v ≠ s.dateToFilter → (LT.setDateToFilter s v).currentPage = 1) ∧
    (∀ (s : LT.LTState) (f : String), (LT.handleSort s f).currentPage = 1) ∧
    (∀ (s : AT.ATState) (v : String), v ≠ s.searchTerm → (AT.setSearch s v).currentPage = 1) ∧
    (∀ (s : AT.ATState) (v : String), v ≠ s.statusFilter → (AT.setStatusFilter s v).currentPage = 1) ∧
    (∀ (s : AT.ATState) (v : String), v ≠ s.ownerFilter → (AT.setOwnerFilter s v).currentPage = 1) ∧
    (∀ (s : AT.ATState) (v : Option String), v ≠ s.tagFilter → (AT.setTagFilter s v).currentPage = 1) ∧
    (∀ (s : AT.ATState) (f : String), (AT.handleSort s f).currentPage = 1) ∧
    (∀ (s : MT.MTState) (v : String), v ≠ s.searchTerm → (MT.setSearch s v).currentPage = 1) ∧
    (∀ (s : MT.MTState) (v : String), v ≠ s.statusFilter → (MT.setStatusFilter s v).currentPage = 1) ∧
    (∀ (s : MT.MTState) (v : String), v ≠ s.organizerFilter → (MT.setOrganizerFilter s v).currentPage = 1) ∧
    (∀ (s : MT.MTState) (col : MT.MSortCol), (MT.handleSort s col).currentPage = 1) ∧
    (∀ (s : TL.TLState) (v : String), v ≠ s.searchTerm → (TL.setSearch s v).currentPage = 1) ∧
    (∀ (s : TL.TLState) (v : String), v ≠ s.statusFilter → (TL.setStatusFilter s v).currentPage = 1) ∧
    (∀ (s : TL.TLState) (v : String), v ≠ s.priorityFilter → (TL.setPriorityFilter s v).currentPage = 1) ∧
    (∀ (s : TL.TLState) (v : String), v ≠ s.assignedToFilter → (TL.setAssignedToFilter s v).currentPage = 1) ∧
    (∀ (s : LV.LVState) (v : String), v ≠ s.searchTerm → (LV.setSearch s v).currentPage = 1) ∧
    (∀ (s : LV.LVState) (v : String), v ≠ s.leadOwnerFilter → (LV.setLeadOwnerFilter s v).currentPage = 1) ∧
    (∀ (s : LV.LVState) (f : LV.AdvancedFilterState), f ≠ s.filters → (LV.setFilters s f).currentPage = 1) ∧
    (∀ (s : LV.LVState) (f : String), (LV.headerSortClick s f).currentPage = s.currentPage) := by
  refine ⟨?_, ?_, ?_, ?_, ?_, ?_, ?_, ?_, ?_, ?_, ?_, ?_, ?_, ?_, ?_, ?_, ?_, ?_, ?_, ?_, ?_,
    ?_, ?_, ?_, ?_, ?_, ?_, ?_, ?_⟩
  all_goals
    first
      | (intro s v h
         simp only [CT.setSearch, CT.setSourceFilter, CT.setOwnerFilter, CT.setSegmentFilter,
           CT.setTagFilter, CT.applyFilterEffect, LT.setSearch, LT.setStatusFilter,
           LT.setOwnerFilter, LT.setDateFromFilter, LT.setDateToFilter, LT.applyFilterEffect,
           AT.setSearch, AT.setStatusFilter, AT.setOwnerFilter, AT.setTagFilter,
           AT.applyFilterEffect, MT.setSearch, MT.setStatusFilter, MT.setOrganizerFilter,
           MT.applyFilterEffect, TL.setSearch, TL.setStatusFilter, TL.setPriorityFilter,
           TL.setAssignedToFilter, TL.resetPageEffect, LV.setSearch, LV.setLeadOwnerFilter,
           LV.setFilters, LV.resetPageEffect]
         rw [if_neg h])
      | (intro s f
         simp only [CT.handleSort, CT.applyFilterEffect, LT.handleSort, LT.applyFilterEffect,
           AT.handleSort, AT.applyFilterEffect, MT.handleSort, MT.applyFilterEffect,
           LV.headerSortClick]
         all_goals first
           | rfl
           | (split <;> rfl))

/-- C2 witness: a concrete search change resets the contact page to 1,
and a concrete sort-header click on the deals list keeps page 2. -/
theorem c2_witness :
    (CT.setSearch ctExState "acme").currentPage = 1 ∧
    (LV.headerSortClick lvPage2State "deal_name").currentPage = lvPage2State.currentPage := by
  refine ⟨?_, ?_⟩
  · exact c2_filter_search_sort_reset_page.1 ctExState "acme" (by decide)
  · exact c2_filter_search_sort_reset_page.2.2.2.2.2.2.2.2.2.2.2.2.2.2.2.2.2.2.2.2.2.2.2.2.2.2.2.2
      lvPage2State "deal_name"

/-- C3 counterexample: in the deals `ListView`, clicking the header of
a column different from the current sort column sets the direction to
DESCENDING, not ascending (`ListView.tsx` line 561). -/
theorem c3_counterexample :
    lvInitState.sortBy ≠ "deal_name" ∧
    (LV.headerSortClick lvInitState "deal_name").sortBy = "deal_name" ∧
    (LV.headerSortClick lvInitState "deal_name").sortOrder = SortDir.desc := by
  refine ⟨by decide, by decide, by decide⟩

/-- C3 (amended): in the contact, lead, account and meetings
controllers the column-header sort handler toggles the direction on the
current sort column and starts a different column at ascending; in the
deals `ListView` it likewise toggles on the current column but starts a
different column at DESCENDING. -/
theorem c3_sort_toggle_and_new_column_direction :
    (∀ (s : CT.CTState) (f : String),
      (s.sortField = some f →
        (CT.handleSort s f).sortField = some f ∧
        (CT.handleSort s f).sortDirection = s.sortDirection.toggle) ∧
      (s.sortField ≠ some f →
        (CT.handleSort s f).sortField = some f ∧
        (CT.handleSort s f).sortDirection = SortDir.asc)) ∧
    (∀ (s : LT.LTState) (f : String),
      (s.sortField = some f →
        (LT.handleSort s f).sortField = some f ∧
        (LT.handleSort s f).sortDirection = s.sortDirection.toggle) ∧
      (s.sortField ≠ some f →
        (LT.handleSort s f).sortField = some f ∧
        (LT.handleSort s f).sortDirection = SortDir.asc)) ∧
    (∀ (s : AT.ATState) (f : String),
      (s.sortField = some f →
        (AT.handleSort s f).sortField = some f ∧
        (AT.handleSort s f).sortDirection = s.sortDirection.toggle) ∧
      (s.sortField ≠ some f →
        (AT.handleSort s f).sortField = some f ∧
        (AT.handleSort s f).sortDirection = SortDir.asc)) ∧
    (∀ (s : MT.MTState) (col : MT.MSortCol),
      (s.sortColumn = some col →
        (MT.handleSort s col).sortColumn = some col ∧
        (MT.handleSort s col).sortDirection = s.sortDirection.toggle) ∧
      (s.sortColumn ≠ some col →
        (MT.handleSort s col).sortColumn = some col ∧
        (MT.handleSort s col).sortDirection = SortDir.asc)) ∧
    (∀ (s : LV.LVState) (f : String),
      (s.sortBy = f →
        (LV.headerSortClick s f).sortBy = f ∧
        (LV.headerSortClick s f).sortOrder = s.sortOrder.toggle) ∧
      (s.sortBy ≠ f →
        (LV.headerSortClick s f).sortBy = f ∧
        (LV.headerSortClick s f).sortOrder = SortDir.desc)) := by
  refine ⟨?_, ?_, ?_, ?_, ?_⟩
  all_goals
    intro s f
    constructor
    · intro h
      simp only [CT.handleSort, CT.applyFilterEffect, LT.handleSort, LT.applyFilterEffect,
        AT.handleSort, AT.applyFilterEffect, MT.handleSort, MT.applyFilterEffect,
        LV.headerSortClick]
      rw [if_pos h]
      exact ⟨h, rfl⟩
    · intro h
      simp only [CT.handleSort, CT.applyFilterEffect, LT.handleSort, LT.applyFilterEffect,
        AT.handleSort, AT.applyFilterEffect, MT.handleSort, MT.applyFilterEffect,
        LV.headerSortClick]
      rw [if_neg h]
      exact ⟨rfl, rfl⟩

/-- C3 witness: concrete sort-header clicks — a first click on a fresh
contact column starts ascending, while a first click on a fresh deals
column starts descending. -/
theorem c3_witness :
    ((CT.handleSort ctExState "email").sortField = some "email" ∧
      (CT.handleSort ctExState "email").sortDirection = SortDir.asc) ∧
    ((LV.headerSortClick lvInitState "deal_name").sortBy = "deal_name" ∧
      (LV.headerSortClick lvInitState "deal_name").sortOrder = SortDir.desc) := by
  refine ⟨?_, ?_⟩
  · exact (c3_sort_toggle_and_new_column_direction.1 ctExState "email").2 (by decide)
  · exact (c3_sort_toggle_and_new_column_direction.2.2.2.2 lvInitState "deal_name").2 (by decide)

/-- C4 counterexample: the `ContactTable` header checkbox only compares
counts (`selectedContacts.length === Math.min(pageContacts.length,
50)`), so at a concrete state whose page shows one contact while the
selection holds one UNRELATED id, the indicator is true although the
visible row is not selected — refuting the claimed equivalence. -/
theorem c4_counterexample :
    CT.selectAllIndicator ctIndicatorState = true ∧
    (∃ c ∈ CT.pageContacts ctIndicatorState, ¬ (c.id ∈ ctIndicatorState.selectedContacts)) := by
  refine ⟨by decide, by decide⟩

/-- C4 (amended): in the meetings controller `isAllSelected` is true
exactly when the page is non-empty and every visible row id is in the
selection.  The contact and deals header checkboxes are count-based:
the contact one is true after select-all on a non-empty page and, like
the deals one, implies a non-empty page — but neither implies that the
visible rows themselves are selected. -/
theorem c4_all_selected_indicator :
    (∀ (effStatus : MT.Meeting → String) (s : MT.MTState),
      MT.isAllSelected effStatus s = true ↔
        (MT.paginatedMeetings effStatus s ≠ [] ∧
          ∀ m ∈ MT.paginatedMeetings effStatus s, m.id ∈ s.selectedMeetings)) ∧
    (∀ s : CT.CTState, CT.pageContacts s ≠ [] →
      CT.selectAllIndicator (CT.handleSelectAll s true) = true) ∧
    (∀ s : CT.CTState, CT.selectAllIndicator s = true → CT.pageContacts s ≠ []) ∧
    (∀ (pd : String → Int) (s : LV.LVState),
      LV.selectAllIndicator pd s = true → LV.paginatedDeals pd s ≠ []) := by
  refine ⟨?_, ?_, ?_, ?_⟩
  · intro effStatus s
    unfold MT.isAllSelected
    simp only [Bool.and_eq_true, decide_eq_true_eq, List.all_eq_true, List.elem_iff]
    constructor
    · rintro ⟨h1, h2⟩
      exact ⟨List.ne_nil_of_length_pos h1, h2⟩
    · rintro ⟨h1, h2⟩
      exact ⟨List.length_pos.mpr h1, h2⟩
  · intro s hne
    have hpc : CT.pageContacts (CT.handleSelectAll s true) = CT.pageContacts s := rfl
    have hsel : (CT.handleSelectAll s true).selectedContacts
        = ((CT.pageContacts s).take 50).map (fun c => c.id) := rfl
    have hL : 0 < (CT.pageContacts s).length := List.length_pos.mpr hne
    unfold CT.selectAllIndicator
    rw [hpc, hsel]
    simp only [List.length_map, List.length_take, Bool.and_eq_true, decide_eq_true_eq]
    omega
  · intro s h
    unfold CT.selectAllIndicator at h
    simp only [Bool.and_eq_true, decide_eq_true_eq] at h
    have hL : 0 < (CT.pageContacts s).length := by omega
    exact List.ne_nil_of_length_pos hL
  · intro pd s h
    unfold LV.selectAllIndicator at h
    simp only [Bool.and_eq_true, decide_eq_true_eq] at h
    exact List.ne_nil_of_length_pos h.2

/-- C4 witness: on a concrete meetings page whose one visible meeting
is selected, the indicator equivalence yields a non-empty page with
every visible row selected; and select-all on a concrete contact page
turns the contact indicator on. -/
theorem c4_witness :
    (MT.paginatedMeetings (fun _ => "scheduled") mtSelState ≠ [] ∧
      ∀ m ∈ MT.paginatedMeetings (fun _ => "scheduled") mtSelState,
        m.id ∈ mtSelState.selectedMeetings) ∧
    CT.selectAllIndicator (CT.handleSelectAll ctExState true) = true := by
  refine ⟨?_, ?_⟩
  · exact (c4_all_selected_indicator.1 (fun _ => "scheduled") mtSelState).mp (by decide)
  · exact c4_all_selected_indicator.2.1 ctExState (by decide)

/-- C5: for every non-empty selection, the contact and meetings bulk
deletes issue exactly one batched delete whose id list is the selected
ids; on success the backend keeps exactly the rows whose id is not
selected and the selection is cleared; on failure the backend rows and
the selection are unchanged. -/
theorem c5_bulk_delete_exact_ids :
    (∀ (sel : List String) (db : List CT.Contact) (fails : Bool), sel ≠ [] →
      (CT.handleBulkDelete sel db fails).calls = [CT.ContactCall.deleteContactsByIds sel] ∧
      (fails = false →
        (∀ c : CT.Contact, c ∈ (CT.handleBulkDelete sel db fails).contactsDb ↔
          (c ∈ db ∧ ¬ c.id ∈ sel)) ∧
        (CT.handleBulkDelete sel db fails).selection = []) ∧
      (fails = true →
        (CT.handleBulkDelete sel db fails).contactsDb = db ∧
        (CT.handleBulkDelete sel db fails).selection = sel)) ∧
    (∀ (sel : List String) (db : List MT.Meeting) (fails : Bool), sel ≠ [] →
      (MT.handleBulkDelete sel db fails).calls = [MT.MeetingCall.deleteMeetingsByIds sel] ∧
      (fails = false →
        (∀ m : MT.Meeting, m ∈ (MT.handleBulkDelete sel db fails).meetingsDb ↔
          (m ∈ db ∧ ¬ m.id ∈ sel)) ∧
        (MT.handleBulkDelete sel db fails).selection = []) ∧
      (fails = true →
        (MT.handleBulkDelete sel db fails).meetingsDb = db ∧
        (MT.handleBulkDelete sel db fails).selection = sel)) := by
  constructor
  · intro sel db fails hsel
    have hE : sel.isEmpty = false := by
      cases sel with
      | nil => exact absurd rfl hsel
      | cons a l => rfl
    cases fails with
    | false =>
      refine ⟨by simp [CT.handleBulkDelete, hE], ?_, ?_⟩
      · intro _
        refine ⟨?_, by simp [CT.handleBulkDelete, hE]⟩
        intro c
        simp [CT.handleBulkDelete, hE, List.mem_filter, List.elem_iff]
      · intro hcontra
        cases hcontra
    | true =>
      refine ⟨by simp [CT.handleBulkDelete, hE], ?_, ?_⟩
      · intro hcontra
        cases hcontra
      · intro _
        exact ⟨by simp [CT.handleBulkDelete, hE], by simp [CT.handleBulkDelete, hE]⟩
  · intro sel db fails hsel
    cases fails with
    | false =>
      refine ⟨by simp [MT.handleBulkDelete], ?_, ?_⟩
      · intro _
        refine ⟨?_, by simp [MT.handleBulkDelete]⟩
        intro m
        simp [MT.handleBulkDelete, List.mem_filter, List.elem_iff]
      · intro hcontra
        cases hcontra
    | true =>
      refine ⟨by simp [MT.handleBulkDelete], ?_, ?_⟩
      · intro hcontra
        cases hcontra
      · intro _
        exact ⟨by simp [MT.handleBulkDelete], by simp [MT.handleBulkDelete]⟩

/-- C5 witness: a concrete successful bulk delete of contact `c1`
issues exactly one delete call carrying `["c1"]`. -/
theorem c5_witness :
    (CT.handleBulkDelete ["c1"] [exContact, exContactB] false).calls
      = [CT.ContactCall.deleteContactsByIds ["c1"]] :=
  (c5_bulk_delete_exact_ids.1 ["c1"] [exContact, exContactB] false (by decide)).1

/-- C6 counterexample: when every selected account is linked, the bulk
delete reports a "Cannot Delete" rejection rather than a summary
counting N deleted and M skipped (and issues no delete), so the claim
as stated fails on a selection consisting of one linked account. -/
theorem c6_counterexample :
    (AT.handleBulkDelete atExBackend ["a1"]).msg = AT.BulkMsg.cannotDeleteAll ∧
    (AT.handleBulkDelete atExBackend ["a1"]).calls
      = [AT.AccountCall.selectContactsByAccountIds ["a1"],
         AT.AccountCall.selectLeadsByAccountIds ["a1"]] ∧
    (AT.handleBulkDelete atExBackend ["a1"]).db = atExBackend := by
  refine ⟨by decide, by decide, by decide⟩

/-- C6 (amended): single delete of an account with a linked contact or
lead is rejected before any accounts delete call and the backend is
unchanged.  Bulk delete pre-screens the selection and deletes exactly
the unlinked selected ids; when at least one selected account is
unlinked it reports the deleted count (with the skipped count when that
is positive) and clears the selection, and when every selected account
is linked it reports a rejection with no delete call and an unchanged
backend. -/
theorem c6_account_referential_guards :
    (∀ (db : AT.Backend) (accId : String),
      (AT.hasLinkedContacts db accId || AT.hasLinkedLeads db accId) = true →
      (∀ ids : List String,
        AT.AccountCall.deleteAccountsByIds ids ∉ (AT.handleDelete db accId).calls) ∧
      (AT.handleDelete db accId).db = db) ∧
    (∀ (db : AT.Backend) (sel : List String), sel ≠ [] →
      (AT.deletableOf db sel ≠ [] →
        (AT.handleBulkDelete db sel).calls
          = [AT.AccountCall.selectContactsByAccountIds sel,
             AT.AccountCall.selectLeadsByAccountIds sel,
             AT.AccountCall.deleteAccountsByIds (AT.deletableOf db sel)] ∧
        (AT.handleBulkDelete db sel).db.accounts
          = db.accounts.filter (fun a => !((AT.deletableOf db sel).contains a.id)) ∧
        (AT.handleBulkDelete db sel).msg
          = (if 0 < sel.length - (AT.deletableOf db sel).length
             then AT.BulkMsg.deletedWithSkipped (AT.deletableOf db sel).length
                    (sel.length - (AT.deletableOf db sel).length)
             else AT.BulkMsg.deletedAll (AT.deletableOf db sel).length) ∧
        (AT.handleBulkDelete db sel).selection = []) ∧
      (AT.deletableOf db sel = [] →
        (AT.handleBulkDelete db sel).calls
          = [AT.AccountCall.selectContactsByAccountIds sel,
             AT.AccountCall.selectLeadsByAccountIds sel] ∧
        (AT.handleBulkDelete db sel).db = db ∧
        (AT.handleBulkDelete db sel).msg = AT.BulkMsg.cannotDeleteAll)) := by
  constructor
  · intro db accId h
    unfold AT.handleDelete
    rw [if_pos h]
    constructor
    · intro ids
      simp
    · rfl
  · intro db sel hsel
    have hE : sel.isEmpty = false := by
      cases sel with
      | nil => exact absurd rfl hsel
      | cons a l => rfl
    have hkey := at_deletable_eq_filter_unlinked db sel
    constructor
    · intro hne
      have hE2 : (AT.deletableOf db sel).isEmpty = false := by
        cases h2 : AT.deletableOf db sel with
        | nil => exact absurd h2 hne
        | cons a l => rfl
      simp only [AT.handleBulkDelete, hE, hkey, hE2, Bool.false_eq_true, if_false]
      exact ⟨trivial, trivial, trivial, trivial⟩
    · intro heq
      have hE2 : (AT.deletableOf db sel).isEmpty = true := by
        rw [heq]
        rfl
      simp only [AT.handleBulkDelete, hE, hkey, hE2, Bool.false_eq_true, if_false, if_true]
      exact ⟨trivial, trivial, trivial⟩

/-- C6 witness: at a concrete backend where account `a1` is linked and
`a2` is not, bulk-deleting the selection `["a1", "a2"]` issues the two
pre-screen queries and one delete carrying exactly the unlinked ids. -/
theorem c6_witness :
    (AT.handleBulkDelete atExBackend ["a1", "a2"]).calls
      = [AT.AccountCall.selectContactsByAccountIds ["a1", "a2"],
         AT.AccountCall.selectLeadsByAccountIds ["a1", "a2"],
         AT.AccountCall.deleteAccountsByIds (AT.deletableOf atExBackend ["a1", "a2"])] :=
  ((c6_account_referential_guards.2 atExBackend ["a1", "a2"] (by decide)).1 (by decide)).1

/-- C7 counterexample: the deals `ListView` select-all selects ALL
filtered rows, not only the visible page — at a concrete state showing
page 2 of eleven deals (page size 10), the selected ids include `d0`,
which is not on the visible page. -/
theorem c7_counterexample :
    "d0" ∈ (LV.handleSelectAll (fun _ => 0) lvPage2State true).selectedDeals ∧
    ¬ "d0" ∈ (LV.paginatedDeals (fun _ => 0) lvPage2State).map (fun d => d.id) := by
  refine ⟨by decide, by decide⟩

/-- C7 (amended): select-all with checked on the contact, lead and
account tables selects only ids of rows on the visible page and at most
50 of them; in the meetings page it selects exactly the visible page
(at most the fixed page size 25, hence at most 50); in the deals
`ListView` it selects ids of all filtered rows, which need not lie on
the visible page and are not capped.  Unchecking empties the selection
everywhere. -/
theorem c7_select_all_page_scope_and_cap :
    (∀ s : CT.CTState,
      (∀ id ∈ (CT.handleSelectAll s true).selectedContacts,
        id ∈ (CT.pageContacts s).map (fun c => c.id)) ∧
      (CT.handleSelectAll s true).selectedContacts.length ≤ 50 ∧
      (CT.handleSelectAll s false).selectedContacts = []) ∧
    (∀ (pd : String → Int) (s : LT.LTState),
      (∀ id ∈ (LT.handleSelectAll pd s true).selectedLeads,
        id ∈ (LT.getCurrentPageLeads pd s).map (fun l => l.id)) ∧
      (LT.handleSelectAll pd s true).selectedLeads.length ≤ 50 ∧
      (LT.handleSelectAll pd s false).selectedLeads = []) ∧
    (∀ s : AT.ATState,
      (∀ id ∈ (AT.handleSelectAll s true).selectedAccounts,
        id ∈ (AT.getCurrentPageAccounts s).map (fun a => a.id)) ∧
      (AT.handleSelectAll s true).selectedAccounts.length ≤ 50 ∧
      (AT.handleSelectAll s false).selectedAccounts = []) ∧
    (∀ (effStatus : MT.Meeting → String) (s : MT.MTState),
      (∀ id ∈ (MT.handleSelectAll effStatus s true).selectedMeetings,
        id ∈ (MT.paginatedMeetings effStatus s).map (fun m => m.id)) ∧
      (MT.handleSelectAll effStatus s true).selectedMeetings.length ≤ 25 ∧
      (MT.handleSelectAll effStatus s false).selectedMeetings = []) ∧
    (∀ (pd : String → Int) (s : LV.LVState),
      (∀ id ∈ (LV.handleSelectAll pd s true).selectedDeals,
        id ∈ (LV.filteredAndSortedDeals pd s).map (fun d => d.id)) ∧
      (LV.handleSelectAll pd s false).selectedDeals = []) := by
  refine ⟨?_, ?_, ?_, ?_, ?_⟩
  · intro s
    refine ⟨?_, ?_, rfl⟩
    · intro id hid
      have hid2 : id ∈ ((CT.pageContacts s).take 50).map (fun c => c.id) := hid
      obtain ⟨c, hc, hce⟩ := List.mem_map.mp hid2
      exact List.mem_map.mpr ⟨c, List.take_subset _ _ hc, hce⟩
    · have h : (CT.handleSelectAll s true).selectedContacts
          = ((CT.pageContacts s).take 50).map (fun c => c.id) := rfl
      rw [h, List.length_map]
      exact List.length_take_le _ _
  · intro pd s
    refine ⟨?_, ?_, rfl⟩
    · intro id hid
      have hid2 : id ∈ ((LT.getCurrentPageLeads pd s).take 50).map (fun l => l.id) := hid
      obtain ⟨l, hl, hle⟩ := List.mem_map.mp hid2
      exact List.mem_map.mpr ⟨l, List.take_subset _ _ hl, hle⟩
    · have h : (LT.handleSelectAll pd s true).selectedLeads
          = ((LT.getCurrentPageLeads pd s).take 50).map (fun l => l.id) := rfl
      rw [h, List.length_map]
      exact List.length_take_le _ _
  · intro s
    refine ⟨?_, ?_, rfl⟩
    · intro id hid
      have hid2 : id ∈ ((AT.getCurrentPageAccounts s).take 50).map (fun a => a.id) := hid
      obtain ⟨a, ha, hae⟩ := List.mem_map.mp hid2
      exact List.mem_map.mpr ⟨a, List.take_subset _ _ ha, hae⟩
    · have h : (AT.handleSelectAll s true).selectedAccounts
          = ((AT.getCurrentPageAccounts s).take 50).map (fun a => a.id) := rfl
      rw [h, List.length_map]
      exact List.length_take_le _ _
  · intro effStatus s
    refine ⟨?_, ?_, rfl⟩
    · intro id hid
      exact hid
    · have h : (MT.handleSelectAll effStatus s true).selectedMeetings
          = (MT.paginatedMeetings effStatus s).map (fun m => m.id) := rfl
      rw [h, List.length_map]
      have h2 := length_jsSlice_le (MT.sortedAndFilteredMeetings effStatus s)
        ((s.currentPage - 1) * MT.ITEMS_PER_PAGE)
        ((s.currentPage - 1) * MT.ITEMS_PER_PAGE + MT.ITEMS_PER_PAGE)
      have h3 : (s.currentPage - 1) * MT.ITEMS_PER_PAGE + MT.ITEMS_PER_PAGE -
          (s.currentPage - 1) * MT.ITEMS_PER_PAGE = 25 := by
        simp [MT.ITEMS_PER_PAGE]
      exact le_trans (h3 ▸ h2) (by omega)
  · intro pd s
    exact ⟨fun id hid => hid, rfl⟩

/-- C7 witness: on a concrete contact page, a selected id produced by
select-all is the id of a visible-page row. -/
theorem c7_witness :
    "c1" ∈ (CT.pageContacts ctExState).map (fun c => c.id) :=
  (c7_select_all_page_scope_and_cap.1 ctExState).1 "c1" (by decide)

/-- C8 counterexample: the claim sorts a `null` numeric field as the
number zero, which against the present value -5 would give a POSITIVE
comparison (0 - (-5) = 5, null after -5).  The comparator instead
coerces `null` with `|| ''` to the empty string and string-compares,
placing the null-score contact strictly BEFORE the (-5)-score contact
in ascending order. -/
theorem c8_counterexample :
    CT.ctCompare SortDir.asc "score" cScoreNull cScoreNeg < 0 ∧
    0 < (0 : Int) - (-5) := by
  refine ⟨by decide, by decide⟩

/-- C8 (amended): in the contact and account comparators two present
NONZERO numeric values are compared by numeric subtraction; string
values (including the ISO-timestamp date strings) are compared by
locale string comparison; a `null`/`undefined` or zero numeric value is
coerced to the empty string — not to the number zero — and therefore
compares as the empty string, which precedes every non-empty rendering;
and every lead field is a string or missing, so the lead comparator
(which has no numeric branch) always string-compares. -/
theorem c8_comparator_field_semantics :
    (∀ (x y : Int), x ≠ 0 → y ≠ 0 →
      CT.compareVals SortDir.asc (JSVal.vnum x) (JSVal.vnum y) = x - y ∧
      CT.compareVals SortDir.desc (JSVal.vnum x) (JSVal.vnum y) = y - x ∧
      AT.compareVals SortDir.asc (JSVal.vnum x) (JSVal.vnum y) = x - y ∧
      AT.compareVals SortDir.desc (JSVal.vnum x) (JSVal.vnum y) = y - x) ∧
    (∀ (s t : String),
      CT.compareVals SortDir.asc (JSVal.vstr s) (JSVal.vstr t) = localeCompare s t ∧
      CT.compareVals SortDir.desc (JSVal.vstr s) (JSVal.vstr t) = -localeCompare s t ∧
      AT.compareVals SortDir.asc (JSVal.vstr s) (JSVal.vstr t) = localeCompare s t ∧
      LT.compareVals SortDir.asc (JSVal.vstr s) (JSVal.vstr t) = localeCompare s t) ∧
    (∀ n : Int, n ≠ 0 →
      CT.compareVals SortDir.asc JSVal.vnull (JSVal.vnum n) = localeCompare "" (toString n) ∧
      CT.compareVals SortDir.asc (JSVal.vnum 0) (JSVal.vnum n) = localeCompare "" (toString n)) ∧
    (∀ t : String, t ≠ "" → localeCompare "" t < 0) ∧
    (∀ (l : LT.Lead) (f : String),
      LT.Lead.get l f = JSVal.vnull ∨ ∃ s, LT.Lead.get l f = JSVal.vstr s) := by
  refine ⟨?_, ?_, ?_, ?_, ?_⟩
  · intro x y hx hy
    refine ⟨?_, ?_, ?_, ?_⟩ <;>
      simp [CT.compareVals, AT.compareVals, jsOrEmptyStr, hx, hy]
  · intro s t
    refine ⟨rfl, rfl, rfl, rfl⟩
  · intro n hn
    refine ⟨?_, ?_⟩ <;>
      simp [CT.compareVals, jsOrEmptyStr, hn, JSVal.toJsString]
  · exact localeCompare_empty_lt
  · intro l f
    unfold LT.Lead.get
    repeat
      first
        | exact Or.inl rfl
        | refine strOrNull_ite _ _ _ (Or.inr ⟨_, rfl⟩) ?_
        | refine strOrNull_ite _ _ _ (ovs_cases _) ?_

/-- C8 witness: two concrete nonzero scores compare by subtraction. -/
theorem c8_witness :
    CT.compareVals SortDir.asc (JSVal.vnum 3) (JSVal.vnum 7) = 3 - 7 :=
  (c8_comparator_field_semantics.1 3 7 (by decide) (by decide)).1

/-- C9: for every non-empty lead selection, the bulk delete with
`deleteLinkedRecords` issues a notifications delete carrying all
selected lead ids and a lead-action-items delete carrying all selected
lead ids strictly before the delete of the leads themselves; the leads
delete is the final call and never occurs among the earlier calls. -/
theorem c9_lead_cascade_before_lead_delete :
    ∀ (sel : List String) (actionItems : List LT.ActionItem), sel ≠ [] →
      ∃ pre : List LT.LeadCall,
        LT.bulkDeleteCalls sel actionItems true = pre ++ [LT.LeadCall.deleteLeadsByIds sel] ∧
        LT.LeadCall.deleteNotificationsByLeadIds sel ∈ pre ∧
        LT.LeadCall.deleteActionItemsByLeadIds sel ∈ pre ∧
        (∀ ids : List String, LT.LeadCall.deleteLeadsByIds ids ∉ pre) := by
  intro sel actionItems hsel
  have hE : sel.isEmpty = false := by
    cases sel with
    | nil => exact absurd rfl hsel
    | cons a l => rfl
  refine ⟨[LT.LeadCall.deleteNotificationsByLeadIds sel] ++
    (if 0 < ((actionItems.filter (fun a => sel.contains a.lead_id)).length) then
      [LT.LeadCall.deleteNotificationsByActionItemIds
        ((actionItems.filter (fun a => sel.contains a.lead_id)).map (fun a => a.id))]
     else []) ++
    [LT.LeadCall.deleteActionItemsByLeadIds sel], ?_, ?_, ?_, ?_⟩
  · simp [LT.bulkDeleteCalls, hE]
  · simp
  · simp
  · intro ids
    by_cases h : 0 < ((actionItems.filter (fun a => sel.contains a.lead_id)).length)
    · simp [h]
    · simp [h]

/-- C9 witness: bulk-deleting three concrete leads produces the cascade
with the leads delete last. -/
theorem c9_witness :
    ∃ pre : List LT.LeadCall,
      LT.bulkDeleteCalls exSel3 exActionItems true
        = pre ++ [LT.LeadCall.deleteLeadsByIds exSel3] ∧
      LT.LeadCall.deleteNotificationsByLeadIds exSel3 ∈ pre ∧
      LT.LeadCall.deleteActionItemsByLeadIds exSel3 ∈ pre ∧
      (∀ ids : List String, LT.LeadCall.deleteLeadsByIds ids ∉ pre) :=
  c9_lead_cascade_before_lead_delete exSel3 exActionItems (by decide)

/-- C10 (implicit): changing the page size leaves `currentPage`
unchanged (and the filtered rows untouched) in the contact, task and
deals controllers; the page is never clamped, so after viewing page 2
of thirty contacts and enlarging the page size to 100 the displayed
window `slice((2-1)*100, 2*100)` is empty although filtered rows
exist. -/
theorem c10_page_size_keeps_page_and_can_empty_window :
    (∀ (s : CT.CTState) (n : Nat),
      (CT.setItemsPerPage s n).currentPage = s.currentPage ∧
      CT.filteredContacts (CT.setItemsPerPage s n) = CT.filteredContacts s) ∧
    (∀ (s : TL.TLState) (n : Nat), (TL.setItemsPerPage s n).currentPage = s.currentPage) ∧
    (∀ (s : LV.LVState) (n : Nat), (LV.setItemsPerPage s n).currentPage = s.currentPage) ∧
    (CT.filteredContacts ctPageSizeState ≠ [] ∧ CT.pageContacts ctPageSizeState = []) := by
  refine ⟨fun s n => ⟨rfl, rfl⟩, fun s n => rfl, fun s n => rfl, by decide, by decide⟩
